import Mathlib

/-!
# iota-iri_exporter: the metric registry of `iota_iri_exporter.go`

A shallow embedding of `Exporter`, `NewExporter`, `Exporter.Describe`,
`Exporter.Collect` and `Exporter.scrape`.

* A Go channel that is only written to is a list that grows at its end.
* The `*Exporter` receiver that the methods mutate in place is passed explicitly
  and returned.
* Calls to collaborators and channel sends are recorded, in execution order, in
  a trace (`Run.trace`), so that "how often" and "in which order" are statements
  about a list.
* The three helpers `scrape_nodeinfo`, `scrape_neighbors` and `scrape_zmq` are
  called by `scrape` but live in files that are not part of the sources at hand;
  they are modelled from the specification and marked as such.
-/

namespace IotaIriExporter

/-! ## The Prometheus client objects the exporter holds -/

/-- The number a gauge holds. The Go type is `float64`; every number the exporter
stores is an integer count (or an elapsed `time.Duration`, an `int64`), so the
embedding keeps integers and performs no floating point arithmetic. -/
abbrev Value := Int

/-- The two fields of `prometheus.GaugeOpts` / `prometheus.CounterOpts` that
`NewExporter` sets (`Namespace` and `Subsystem` are commented out in the source,
hence empty, and the fully qualified name is `Name`). -/
structure Opts where
  Name : String
  Help : String
deriving DecidableEq, Repr

/-- A `prometheus.Desc`: fully qualified name, help text and label schema. -/
structure Desc where
  fqName : String
  help : String
  variableLabels : List String
deriving DecidableEq, Repr

/-- Whether a metric is exposed as a gauge or as a counter. -/
inductive MetricKind where
  | gauge
  | counter
deriving DecidableEq, Repr

/-- What the exposition layer reads off a `prometheus.Metric` it receives on the
channel: its descriptor, its kind, its label pairs and its current value. -/
structure Sample where
  desc : Desc
  kind : MetricKind
  labels : List (String × String)
  value : Value
deriving DecidableEq, Repr

/-- A `prometheus.Gauge`. -/
structure Gauge where
  desc : Desc
  val : Value
deriving DecidableEq, Repr

/-- A `prometheus.Counter`; it starts at 0 and only `Inc` changes it, so it holds a
number of increments. -/
structure Counter where
  desc : Desc
  val : Nat
deriving DecidableEq, Repr

/-- A `*prometheus.GaugeVec`: a descriptor with a label schema and a map from
label values to the gauge value stored for them. The Go map is an association
list here; `GaugeVec.keyed` says that no key occurs twice, as in any Go map. -/
structure GaugeVec where
  desc : Desc
  metrics : List (List String × Value)
deriving DecidableEq, Repr

/-- The call `prometheus.NewGauge(opts)`. -/
def NewGauge (o : Opts) : Gauge :=
  { desc := { fqName := o.Name, help := o.Help, variableLabels := [] }, val := 0 }

/-- The call `prometheus.NewCounter(opts)`. -/
def NewCounter (o : Opts) : Counter :=
  { desc := { fqName := o.Name, help := o.Help, variableLabels := [] }, val := 0 }

/-- The call `prometheus.NewGaugeVec(opts, labelNames)`. -/
def NewGaugeVec (o : Opts) (labelNames : List String) : GaugeVec :=
  { desc := { fqName := o.Name, help := o.Help, variableLabels := labelNames }, metrics := [] }

/-- The method `Gauge.Desc()`. -/
def Gauge.Desc (g : Gauge) : Desc := g.desc

/-- The method `Counter.Desc()`. -/
def Counter.Desc (c : Counter) : Desc := c.desc

/-- The method `Gauge.Set(v)`. -/
def Gauge.Set (g : Gauge) (v : Value) : Gauge := { g with val := v }

/-- The method `Counter.Inc()`. -/
def Counter.Inc (c : Counter) : Counter := { c with val := c.val + 1 }

/-- The metric as read by the receiver of `ch <- g`. -/
def Gauge.Metric (g : Gauge) : Sample :=
  { desc := g.desc, kind := MetricKind.gauge, labels := [], value := g.val }

/-- The metric as read by the receiver of `ch <- c`. -/
def Counter.Metric (c : Counter) : Sample :=
  { desc := c.desc, kind := MetricKind.counter, labels := [], value := (c.val : Int) }

/-- The method `GaugeVec.Describe(ch)`: sends the one descriptor of the family. -/
def GaugeVec.Describe (v : GaugeVec) (ch : List Desc) : List Desc := ch ++ [v.desc]

/-- Store `x` under the label values `lvs`: overwrite the entry when the key is
there, add one otherwise. -/
def setEntry (lvs : List String) (x : Value) :
    List (List String × Value) → List (List String × Value)
  | [] => [(lvs, x)]
  | (k, y) :: rest => if k = lvs then (k, x) :: rest else (k, y) :: setEntry lvs x rest

/-- The value stored under the label values `lvs`, if any. -/
def getEntry (lvs : List String) : List (List String × Value) → Option Value
  | [] => none
  | (k, y) :: rest => if k = lvs then some y else getEntry lvs rest

/-- The call `v.WithLabelValues(lvs...).Set(x)`. -/
def GaugeVec.SetWithLabelValues (v : GaugeVec) (lvs : List String) (x : Value) : GaugeVec :=
  { v with metrics := setEntry lvs x v.metrics }

/-- The value the family stores under the label values `lvs`. -/
def GaugeVec.get (v : GaugeVec) (lvs : List String) : Option Value := getEntry lvs v.metrics

/-- The label values the family currently stores. -/
def GaugeVec.keys (v : GaugeVec) : List (List String) := v.metrics.map Prod.fst

/-- The child metric of a family stored under `lvs` with value `x`, as read by the
receiver. -/
def GaugeVec.child (v : GaugeVec) (entry : List String × Value) : Sample :=
  { desc := v.desc, kind := MetricKind.gauge,
    labels := v.desc.variableLabels.zip entry.1, value := entry.2 }

/-- The metrics that `GaugeVec.Collect(ch)` sends: one per stored entry. -/
def GaugeVec.children (v : GaugeVec) : List Sample := v.metrics.map v.child

/-! ## The exporter -/

/-- The struct `Exporter`, fields in the order of the declaration. -/
structure Exporter where
  iriAddress : String
  iota_node_info_duration : Gauge
  iota_node_info_available_processors : Gauge
  iota_node_info_free_memory : Gauge
  iota_node_info_max_memory : Gauge
  iota_node_info_total_memory : Gauge
  iota_node_info_latest_milestone : Gauge
  iota_node_info_latest_subtangle_milestone : Gauge
  iota_node_info_total_neighbors : Gauge
  iota_node_info_total_tips : Gauge
  iota_node_info_total_transactions_queued : Gauge
  iota_node_info_totalScrapes : Counter
  iota_neighbors_info_total_neighbors : Gauge
  iota_neighbors_info_active_neighbors : Gauge
  iota_neighbors_new_transactions : GaugeVec
  iota_neighbors_random_transactions : GaugeVec
  iota_neighbors_all_transactions : GaugeVec
  iota_neighbors_invalid_transactions : GaugeVec
  iota_neighbors_sent_transactions : GaugeVec
  iota_neighbors_active : GaugeVec
  iota_zmq_seen_tx_count : Gauge
  iota_zmq_txs_with_value_count : Gauge
  iota_zmq_confirmed_tx_count : Gauge
  iota_zmq_to_request : Gauge
  iota_zmq_to_process : Gauge
  iota_zmq_to_broadcast : Gauge
  iota_zmq_to_reply : Gauge
  iota_zmq_total_transactions : Gauge

/-- The function `NewExporter`, entries in the order of the source. -/
def NewExporter (iriAddress : String) : Exporter :=
  { iriAddress := iriAddress
    iota_node_info_duration := NewGauge
      { Name := "iota_node_info_duration"
        Help := "Response time of getting Node Info." }
    iota_node_info_available_processors := NewGauge
      { Name := "iota_node_info_available_processors"
        Help := "Number of cores available in this Node." }
    iota_node_info_free_memory := NewGauge
      { Name := "iota_node_info_free_memory"
        Help := "Free Memory in this IRI instance." }
    iota_node_info_max_memory := NewGauge
      { Name := "iota_node_info_max_memory"
        Help := "Max Memory in this IRI instance." }
    iota_node_info_total_memory := NewGauge
      { Name := "iota_node_info_total_memory"
        Help := "Total Memory in this IRI instance." }
    iota_node_info_latest_milestone := NewGauge
      { Name := "iota_node_info_latest_milestone"
        Help := "Tangle milestone at the interval." }
    iota_node_info_latest_subtangle_milestone := NewGauge
      { Name := "iota_node_info_latest_subtangle_milestone"
        Help := "Subtangle milestone at the interval." }
    iota_node_info_total_neighbors := NewGauge
      { Name := "iota_node_info_total_neighbors"
        Help := "Total neighbors at the interval." }
    iota_node_info_total_tips := NewGauge
      { Name := "iota_node_info_total_tips"
        Help := "Total tips at the interval." }
    iota_node_info_total_transactions_queued := NewGauge
      { Name := "iota_node_info_total_transactions_queued"
        Help := "Total open txs at the interval." }
    iota_node_info_totalScrapes := NewCounter
      { Name := "iota_node_info_scrapes_total"
        Help := "Total number of scrapes." }
    iota_neighbors_info_total_neighbors := NewGauge
      { Name := "iota_neighbors_info_total_neighbors"
        Help := "Total number of neighbors as received in the getNeighbors ws call." }
    iota_neighbors_info_active_neighbors := NewGauge
      { Name := "iota_neighbors_info_active_neighbors"
        Help := "Total number of neighbors that are active." }
    iota_neighbors_new_transactions := NewGaugeVec
      { Name := "iota_neighbors_new_transactions"
        Help := "Number of New Transactions for a specific Neighbor." }
      ["id"]
    iota_neighbors_random_transactions := NewGaugeVec
      { Name := "iota_neighbors_random_transactions"
        Help := "Number of Random Transactions for a specific Neighbor." }
      ["id"]
    iota_neighbors_all_transactions := NewGaugeVec
      { Name := "iota_neighbors_all_transactions"
        Help := "Number of All Transaction Types for a specific Neighbor." }
      ["id"]
    iota_neighbors_invalid_transactions := NewGaugeVec
      { Name := "iota_neighbors_invalid_transactions"
        Help := "Number of Invalid Transactions for a specific Neighbor." }
      ["id"]
    iota_neighbors_sent_transactions := NewGaugeVec
      { Name := "iota_neighbors_sent_transactions"
        Help := "Number of Invalid Transactions for a specific Neighbor." }
      ["id"]
    iota_neighbors_active := NewGaugeVec
      { Name := "iota_neighbors_active"
        Help := "Report if the Neighbor Active based on incoming transactions." }
      ["id"]
    iota_zmq_seen_tx_count := NewGauge
      { Name := "iota_zmq_seen_tx_count"
        Help := "Count of transactions seen by zeroMQ." }
    iota_zmq_txs_with_value_count := NewGauge
      { Name := "iota_zmq_txs_with_value_count"
        Help := "Count of transactions seen by zeroMQ that have a non-zero value." }
    iota_zmq_confirmed_tx_count := NewGauge
      { Name := "iota_zmq_confirmed_tx_count"
        Help := "Count of transactions confirmed by zeroMQ." }
    iota_zmq_to_process := NewGauge
      { Name := "iota_zmq_to_process"
        Help := "toProcess from RSTAT output of ZMQ." }
    iota_zmq_to_broadcast := NewGauge
      { Name := "iota_zmq_to_broadcast"
        Help := "toBroadcast from RSTAT output of ZMQ." }
    iota_zmq_to_request := NewGauge
      { Name := "iota_zmq_to_request"
        Help := "toRequest from RSTAT output of ZMQ." }
    iota_zmq_to_reply := NewGauge
      { Name := "iota_zmq_to_reply"
        Help := "toReply from RSTAT output of ZMQ." }
    iota_zmq_total_transactions := NewGauge
      { Name := "iota_zmq_total_transactions"
        Help := "totalTransactions from RSTAT output of ZMQ." } }

/-- The method `Exporter.Describe`: the channel `ch` receives one descriptor per
statement, in the order of the source. -/
def Describe (e : Exporter) (ch : List Desc) : List Desc :=
  let ch := ch ++ [e.iota_node_info_duration.Desc]
  let ch := ch ++ [e.iota_node_info_available_processors.Desc]
  let ch := ch ++ [e.iota_node_info_free_memory.Desc]
  let ch := ch ++ [e.iota_node_info_max_memory.Desc]
  let ch := ch ++ [e.iota_node_info_total_memory.Desc]
  let ch := ch ++ [e.iota_node_info_latest_milestone.Desc]
  let ch := ch ++ [e.iota_node_info_latest_subtangle_milestone.Desc]
  let ch := ch ++ [e.iota_node_info_total_neighbors.Desc]
  let ch := ch ++ [e.iota_node_info_total_tips.Desc]
  let ch := ch ++ [e.iota_node_info_total_transactions_queued.Desc]
  let ch := ch ++ [e.iota_node_info_totalScrapes.Desc]
  let ch := ch ++ [e.iota_neighbors_info_total_neighbors.Desc]
  let ch := ch ++ [e.iota_neighbors_info_active_neighbors.Desc]
  let ch := e.iota_neighbors_new_transactions.Describe ch
  let ch := e.iota_neighbors_random_transactions.Describe ch
  let ch := e.iota_neighbors_all_transactions.Describe ch
  let ch := e.iota_neighbors_invalid_transactions.Describe ch
  let ch := e.iota_neighbors_sent_transactions.Describe ch
  let ch := e.iota_neighbors_active.Describe ch
  let ch := ch ++ [e.iota_zmq_seen_tx_count.Desc]
  let ch := ch ++ [e.iota_zmq_txs_with_value_count.Desc]
  let ch := ch ++ [e.iota_zmq_confirmed_tx_count.Desc]
  let ch := ch ++ [e.iota_zmq_to_process.Desc]
  let ch := ch ++ [e.iota_zmq_to_broadcast.Desc]
  let ch := ch ++ [e.iota_zmq_to_request.Desc]
  let ch := ch ++ [e.iota_zmq_to_reply.Desc]
  let ch := ch ++ [e.iota_zmq_total_transactions.Desc]
  ch

/-! ## The collaborators: ledger node, streaming feed -/

/-- The client `giota.NewAPI(endpoint, nil)` returns; all the exporter does with
it is hand it to the two fetches. -/
structure API where
  endpoint : String
deriving DecidableEq, Repr

/-- The call `giota.NewAPI(endpoint, nil)`. -/
def NewAPI (endpoint : String) : API := { endpoint := endpoint }

/-- Modelled from the spec: the `NodeSnapshot` of section 3, the numeric fields of
a node-info response (the response type belongs to the client library). -/
structure NodeSnapshot where
  availableProcessors : Int
  freeMemory : Int
  maxMemory : Int
  totalMemory : Int
  latestMilestoneIndex : Int
  latestSubtangleMilestoneIndex : Int
  neighbors : Int
  tips : Int
  transactionsQueued : Int
deriving DecidableEq, Repr

/-- Modelled from the spec: the `NeighborStat` of section 3, one entry of a
neighbor-list response, with the peer identifier and the five counts. -/
structure NeighborStat where
  id : String
  newTransactions : Int
  randomTransactions : Int
  allTransactions : Int
  invalidTransactions : Int
  sentTransactions : Int
deriving DecidableEq, Repr

/-- Modelled from the spec: the `ZmqStat` of section 3, the counters sampled from
the streaming feed. -/
structure ZmqStat where
  seenTxCount : Int
  txsWithValueCount : Int
  confirmedTxCount : Int
  toRequest : Int
  toProcess : Int
  toBroadcast : Int
  toReply : Int
  totalTransactions : Int
deriving DecidableEq, Repr

/-- What the outside answers during one scrape: for each fetch either a result
(`some`) or a failure (`none`). The two HTTP fetches answer per client; a
node-info answer comes with the elapsed time of the call. -/
structure World where
  GetNodeInfo : API → Option (Value × NodeSnapshot)
  GetNeighbors : API → Option (List NeighborStat)
  zmqSample : Option ZmqStat

/-- What is observable of a run: calls, in the order they are made, and what is
put on the metrics channel. -/
inductive Event where
  /-- Entry into `Exporter.scrape`. -/
  | scrape
  /-- The call `giota.NewAPI(endpoint, nil)`. -/
  | NewAPI (endpoint : String)
  /-- The call `scrape_nodeinfo(e, api)`. -/
  | scrape_nodeinfo (api : API)
  /-- The call `scrape_neighbors(e, api)`. -/
  | scrape_neighbors (api : API)
  /-- The call `scrape_zmq(e)`. -/
  | scrape_zmq
  /-- The statement `ch <- m` for a gauge or counter `m`. -/
  | send (m : Sample)
  /-- The call `v.Collect(ch)` for a family `v` with descriptor `d`, which puts
  the metrics `ms` on the channel. -/
  | collectVec (d : Desc) (ms : List Sample)
deriving DecidableEq, Repr

/-- The exporter together with the trace of what has happened so far. -/
structure Run where
  exporter : Exporter
  trace : List Event

/-- Append one event to the trace. -/
def Run.log (r : Run) (ev : Event) : Run := { r with trace := r.trace ++ [ev] }

/-- The statement `ch <- m`. -/
def Run.send (r : Run) (m : Sample) : Run := r.log (Event.send m)

/-- The call `v.Collect(ch)`. -/
def Run.collectVec (r : Run) (v : GaugeVec) : Run := r.log (Event.collectVec v.desc v.children)

/-! ## The three sub-scrapes (sources not at hand) -/

/-- Modelled from the spec: the assignments of the node-info sub-scrape on
success (section 4.2, item 1): the duration gauge takes the elapsed time, each
numeric field goes into its scalar gauge. -/
def setNodeInfo (e : Exporter) (elapsed : Value) (s : NodeSnapshot) : Exporter :=
  { e with
    iota_node_info_duration := e.iota_node_info_duration.Set elapsed
    iota_node_info_available_processors :=
      e.iota_node_info_available_processors.Set s.availableProcessors
    iota_node_info_free_memory := e.iota_node_info_free_memory.Set s.freeMemory
    iota_node_info_max_memory := e.iota_node_info_max_memory.Set s.maxMemory
    iota_node_info_total_memory := e.iota_node_info_total_memory.Set s.totalMemory
    iota_node_info_latest_milestone :=
      e.iota_node_info_latest_milestone.Set s.latestMilestoneIndex
    iota_node_info_latest_subtangle_milestone :=
      e.iota_node_info_latest_subtangle_milestone.Set s.latestSubtangleMilestoneIndex
    iota_node_info_total_neighbors := e.iota_node_info_total_neighbors.Set s.neighbors
    iota_node_info_total_tips := e.iota_node_info_total_tips.Set s.tips
    iota_node_info_total_transactions_queued :=
      e.iota_node_info_total_transactions_queued.Set s.transactionsQueued }

/-- Modelled from the spec: the helper `scrape_nodeinfo(e, api)`, absent from the
sources (section 4.2, item 1, and the failure policy): the total-scrapes counter
is incremented unconditionally; the fetch is made with `api`; on success the
gauges are assigned, on failure the assignments are skipped. -/
def scrape_nodeinfo (w : World) (r : Run) (api : API) : Run :=
  let r := r.log (Event.scrape_nodeinfo api)
  let e := { r.exporter with
    iota_node_info_totalScrapes := r.exporter.iota_node_info_totalScrapes.Inc }
  match w.GetNodeInfo api with
  | some (elapsed, s) => { r with exporter := setNodeInfo e elapsed s }
  | none => { r with exporter := e }

/-- Modelled from the spec: the active flag of a neighbor (section 4.2, item 2):
"nonzero total transaction count this interval". -/
def activeFlag (n : NeighborStat) : Value := if n.allTransactions = 0 then 0 else 1

/-- Modelled from the spec: the six per-peer assignments for one neighbor entry
(section 4.2, item 2), keyed by the peer identifier. -/
def setNeighbor (e : Exporter) (n : NeighborStat) : Exporter :=
  { e with
    iota_neighbors_new_transactions :=
      e.iota_neighbors_new_transactions.SetWithLabelValues [n.id] n.newTransactions
    iota_neighbors_random_transactions :=
      e.iota_neighbors_random_transactions.SetWithLabelValues [n.id] n.randomTransactions
    iota_neighbors_all_transactions :=
      e.iota_neighbors_all_transactions.SetWithLabelValues [n.id] n.allTransactions
    iota_neighbors_invalid_transactions :=
      e.iota_neighbors_invalid_transactions.SetWithLabelValues [n.id] n.invalidTransactions
    iota_neighbors_sent_transactions :=
      e.iota_neighbors_sent_transactions.SetWithLabelValues [n.id] n.sentTransactions
    iota_neighbors_active :=
      e.iota_neighbors_active.SetWithLabelValues [n.id] (activeFlag n) }

/-- Modelled from the spec: the assignments of the neighbor sub-scrape on success
(section 4.2, item 2): total and active neighbor counts as scalars, then the six
per-peer metrics of every entry, in the order of the response. -/
def setNeighbors (e : Exporter) (ns : List NeighborStat) : Exporter :=
  let e := { e with
    iota_neighbors_info_total_neighbors :=
      e.iota_neighbors_info_total_neighbors.Set (ns.length : Int)
    iota_neighbors_info_active_neighbors :=
      e.iota_neighbors_info_active_neighbors.Set
        ((ns.filter (fun n => decide (activeFlag n = 1))).length : Int) }
  ns.foldl setNeighbor e

/-- Modelled from the spec: the helper `scrape_neighbors(e, api)`, absent from the
sources (section 4.2, item 2, and the failure policy): the fetch is made with
`api`; on failure the assignments are skipped. -/
def scrape_neighbors (w : World) (r : Run) (api : API) : Run :=
  let r := r.log (Event.scrape_neighbors api)
  match w.GetNeighbors api with
  | some ns => { r with exporter := setNeighbors r.exporter ns }
  | none => r

/-- Modelled from the spec: the assignments of the streaming-feed sub-scrape
(section 4.2, item 3): each sampled counter goes into its scalar gauge. -/
def setZmq (e : Exporter) (z : ZmqStat) : Exporter :=
  { e with
    iota_zmq_seen_tx_count := e.iota_zmq_seen_tx_count.Set z.seenTxCount
    iota_zmq_txs_with_value_count := e.iota_zmq_txs_with_value_count.Set z.txsWithValueCount
    iota_zmq_confirmed_tx_count := e.iota_zmq_confirmed_tx_count.Set z.confirmedTxCount
    iota_zmq_to_request := e.iota_zmq_to_request.Set z.toRequest
    iota_zmq_to_process := e.iota_zmq_to_process.Set z.toProcess
    iota_zmq_to_broadcast := e.iota_zmq_to_broadcast.Set z.toBroadcast
    iota_zmq_to_reply := e.iota_zmq_to_reply.Set z.toReply
    iota_zmq_total_transactions := e.iota_zmq_total_transactions.Set z.totalTransactions }

/-- Modelled from the spec: the helper `scrape_zmq(e)`, absent from the sources
(section 4.2, item 3, and the failure policy): when the sample cannot be read
the assignments are skipped. -/
def scrape_zmq (w : World) (r : Run) : Run :=
  let r := r.log Event.scrape_zmq
  match w.zmqSample with
  | some z => { r with exporter := setZmq r.exporter z }
  | none => r

/-! ## `scrape` and `Collect` -/

/-- The method `Exporter.scrape` (its channel argument is not used). -/
def scrape (w : World) (r : Run) : Run :=
  let r := r.log Event.scrape
  let r := r.log (Event.NewAPI r.exporter.iriAddress)
  let api := NewAPI r.exporter.iriAddress
  let r := scrape_nodeinfo w r api
  let r := scrape_neighbors w r api
  let r := scrape_zmq w r
  r

/-- The method `Exporter.Collect`, one line per statement of the source. -/
def Collect (w : World) (r : Run) : Run :=
  let r := scrape w r
  let r := r.send r.exporter.iota_node_info_duration.Metric
  let r := r.send r.exporter.iota_node_info_available_processors.Metric
  let r := r.send r.exporter.iota_node_info_free_memory.Metric
  let r := r.send r.exporter.iota_node_info_max_memory.Metric
  let r := r.send r.exporter.iota_node_info_total_memory.Metric
  let r := r.send r.exporter.iota_node_info_latest_milestone.Metric
  let r := r.send r.exporter.iota_node_info_latest_subtangle_milestone.Metric
  let r := r.send r.exporter.iota_node_info_total_neighbors.Metric
  let r := r.send r.exporter.iota_node_info_total_tips.Metric
  let r := r.send r.exporter.iota_node_info_total_transactions_queued.Metric
  let r := r.send r.exporter.iota_node_info_totalScrapes.Metric
  let r := r.send r.exporter.iota_neighbors_info_total_neighbors.Metric
  let r := r.send r.exporter.iota_neighbors_info_active_neighbors.Metric
  let r := r.collectVec r.exporter.iota_neighbors_new_transactions
  let r := r.collectVec r.exporter.iota_neighbors_random_transactions
  let r := r.collectVec r.exporter.iota_neighbors_all_transactions
  let r := r.collectVec r.exporter.iota_neighbors_invalid_transactions
  let r := r.collectVec r.exporter.iota_neighbors_sent_transactions
  let r := r.collectVec r.exporter.iota_neighbors_active
  let r := r.send r.exporter.iota_zmq_seen_tx_count.Metric
  let r := r.send r.exporter.iota_zmq_txs_with_value_count.Metric
  let r := r.send r.exporter.iota_zmq_confirmed_tx_count.Metric
  let r := r.send r.exporter.iota_zmq_to_process.Metric
  let r := r.send r.exporter.iota_zmq_to_broadcast.Metric
  let r := r.send r.exporter.iota_zmq_to_request.Metric
  let r := r.send r.exporter.iota_zmq_to_reply.Metric
  let r := r.send r.exporter.iota_zmq_total_transactions.Metric
  r

/-- The start of a run: the exporter and an empty trace. -/
def Run.start (e : Exporter) : Run := { exporter := e, trace := [] }

/-- A sequence of `Collect` invocations, one per world, oldest first. -/
def collects (ws : List World) (r : Run) : Run := ws.foldl (fun r w => Collect w r) r

/-- An exporter state the process can be in: built by `NewExporter`, then any
number of `Collect` invocations against any worlds. -/
def reach (addr : String) (ws : List World) : Exporter :=
  (collects ws (Run.start (NewExporter addr))).exporter

/-! ## Views of the exporter used in the statements -/

/-- A metric field of `Exporter`: a gauge, the counter, or a gauge family. -/
inductive Member where
  | gauge (g : Gauge)
  | counter (c : Counter)
  | vec (v : GaugeVec)
deriving DecidableEq, Repr

/-- The descriptor of a metric field. -/
def Member.desc : Member → Desc
  | Member.gauge g => g.desc
  | Member.counter c => c.desc
  | Member.vec v => v.desc

/-- Whether the field is a `prometheus.Gauge`. -/
def Member.isGauge : Member → Bool
  | Member.gauge _ => true
  | _ => false

/-- Whether the field is a `prometheus.Counter`. -/
def Member.isCounter : Member → Bool
  | Member.counter _ => true
  | _ => false

/-- Whether the field is a `*prometheus.GaugeVec`. -/
def Member.isVec : Member → Bool
  | Member.vec _ => true
  | _ => false

/-- What emitting a metric field puts in the trace: `ch <- m` for a scalar,
`v.Collect(ch)` with one metric per stored entry for a family. -/
def Member.emit : Member → Event
  | Member.gauge g => Event.send g.Metric
  | Member.counter c => Event.send c.Metric
  | Member.vec v => Event.collectVec v.desc (v.metrics.map v.child)

/-- The metric fields fed by the node-info sub-scrape (struct order). -/
def Exporter.nodeInfoMembers (e : Exporter) : List Member :=
  [ Member.gauge e.iota_node_info_duration,
    Member.gauge e.iota_node_info_available_processors,
    Member.gauge e.iota_node_info_free_memory,
    Member.gauge e.iota_node_info_max_memory,
    Member.gauge e.iota_node_info_total_memory,
    Member.gauge e.iota_node_info_latest_milestone,
    Member.gauge e.iota_node_info_latest_subtangle_milestone,
    Member.gauge e.iota_node_info_total_neighbors,
    Member.gauge e.iota_node_info_total_tips,
    Member.gauge e.iota_node_info_total_transactions_queued,
    Member.counter e.iota_node_info_totalScrapes ]

/-- The six per-peer gauge families (struct order). -/
def Exporter.families (e : Exporter) : List GaugeVec :=
  [ e.iota_neighbors_new_transactions,
    e.iota_neighbors_random_transactions,
    e.iota_neighbors_all_transactions,
    e.iota_neighbors_invalid_transactions,
    e.iota_neighbors_sent_transactions,
    e.iota_neighbors_active ]

/-- The metric fields fed by the neighbor sub-scrape (struct order). -/
def Exporter.neighborMembers (e : Exporter) : List Member :=
  [ Member.gauge e.iota_neighbors_info_total_neighbors,
    Member.gauge e.iota_neighbors_info_active_neighbors ] ++ e.families.map Member.vec

/-- The metric fields fed by the streaming-feed sub-scrape (struct order). -/
def Exporter.zmqMembers (e : Exporter) : List Member :=
  [ Member.gauge e.iota_zmq_seen_tx_count,
    Member.gauge e.iota_zmq_txs_with_value_count,
    Member.gauge e.iota_zmq_confirmed_tx_count,
    Member.gauge e.iota_zmq_to_request,
    Member.gauge e.iota_zmq_to_process,
    Member.gauge e.iota_zmq_to_broadcast,
    Member.gauge e.iota_zmq_to_reply,
    Member.gauge e.iota_zmq_total_transactions ]

/-- Every metric field of the struct `Exporter`, in the order of the declaration
(all fields but `iriAddress`). -/
def Exporter.members (e : Exporter) : List Member :=
  e.nodeInfoMembers ++ e.neighborMembers ++ e.zmqMembers

/-- The descriptors of all metric fields (struct order). -/
def Exporter.descs (e : Exporter) : List Desc := e.members.map Member.desc

/-- The metric names of all metric fields (struct order). -/
def Exporter.names (e : Exporter) : List String := e.descs.map Desc.fqName

/-- The help texts of all metric fields (struct order). -/
def Exporter.helps (e : Exporter) : List String := e.descs.map Desc.help

/-- Whether an event puts something on the metrics channel. -/
def Event.isEmit : Event → Bool
  | Event.send _ => true
  | Event.collectVec _ _ => true
  | _ => false

/-- The descriptor of the metric or family an event emits, if it emits. -/
def Event.desc? : Event → Option Desc
  | Event.send m => some m.desc
  | Event.collectVec d _ => some d
  | _ => none

/-- The metrics an event puts on the channel. -/
def Event.sent : Event → List Sample
  | Event.send m => [m]
  | Event.collectVec _ ms => ms
  | _ => []

/-- All metrics a trace puts on the channel, in order. -/
def sentOf (t : List Event) : List Sample := t.flatMap Event.sent

/-- The metrics one `Collect` against world `w` yields from exporter state `e`. -/
def yielded (w : World) (e : Exporter) : List Sample := sentOf (Collect w (Run.start e)).trace

/-- The metric fields in the order in which the statements of `Describe` and of
`Collect` name them (the two methods name them in the same order; the lemmas
`Describe_order` and `Collect_trace_order` tie each method to this list). -/
def Exporter.sourceOrder (e : Exporter) : List Member :=
  [ Member.gauge e.iota_node_info_duration,
    Member.gauge e.iota_node_info_available_processors,
    Member.gauge e.iota_node_info_free_memory,
    Member.gauge e.iota_node_info_max_memory,
    Member.gauge e.iota_node_info_total_memory,
    Member.gauge e.iota_node_info_latest_milestone,
    Member.gauge e.iota_node_info_latest_subtangle_milestone,
    Member.gauge e.iota_node_info_total_neighbors,
    Member.gauge e.iota_node_info_total_tips,
    Member.gauge e.iota_node_info_total_transactions_queued,
    Member.counter e.iota_node_info_totalScrapes,
    Member.gauge e.iota_neighbors_info_total_neighbors,
    Member.gauge e.iota_neighbors_info_active_neighbors,
    Member.vec e.iota_neighbors_new_transactions,
    Member.vec e.iota_neighbors_random_transactions,
    Member.vec e.iota_neighbors_all_transactions,
    Member.vec e.iota_neighbors_invalid_transactions,
    Member.vec e.iota_neighbors_sent_transactions,
    Member.vec e.iota_neighbors_active,
    Member.gauge e.iota_zmq_seen_tx_count,
    Member.gauge e.iota_zmq_txs_with_value_count,
    Member.gauge e.iota_zmq_confirmed_tx_count,
    Member.gauge e.iota_zmq_to_process,
    Member.gauge e.iota_zmq_to_broadcast,
    Member.gauge e.iota_zmq_to_request,
    Member.gauge e.iota_zmq_to_reply,
    Member.gauge e.iota_zmq_total_transactions ]

/-- Whether a metric carries exactly the label pair `id = A`. -/
def labelled (A : String) (s : Sample) : Bool := decide (s.labels = [("id", A)])

/-- The metric of family `v` for the peer `A`: labelled `id = A`, with the value
the family stores under `A` (0 stands in when nothing is stored). -/
def GaugeVec.sampleOf (v : GaugeVec) (A : String) : Sample :=
  { desc := v.desc, kind := MetricKind.gauge, labels := [("id", A)],
    value := (v.get [A]).getD 0 }

/-- The keys of a family are pairwise distinct and each is a single label value
(`WithLabelValues` accepts only as many values as the family has label names). -/
def GaugeVec.keyed (v : GaugeVec) : Prop := v.keys.Nodup ∧ ∀ k ∈ v.keys, k.length = 1

/-- The invariant of reachable exporter states: the descriptors are those
`NewExporter` assigned and every family is keyed by single label values. -/
def Exporter.Inv (e : Exporter) : Prop :=
  e.descs = (NewExporter "").descs ∧ ∀ v ∈ e.families, v.keyed

/-- A peer that reported no transactions. -/
def peerA : NeighborStat :=
  { id := "A", newTransactions := 0, randomTransactions := 0, allTransactions := 0,
    invalidTransactions := 0, sentTransactions := 0 }

/-- A peer that reported transactions. -/
def peerB : NeighborStat :=
  { id := "B", newTransactions := 5, randomTransactions := 1, allTransactions := 9,
    invalidTransactions := 2, sentTransactions := 7 }

/-- A world in which the node-info fetch fails, the neighbor fetch returns the
peers `A` and `B`, and the feed sample cannot be read. -/
def World.twoPeers : World :=
  { GetNodeInfo := fun _ => none
    GetNeighbors := fun _ => some [peerA, peerB]
    zmqSample := none }

/-- A second entry under the identifier `A`, this one with transactions. -/
def peerA2 : NeighborStat :=
  { id := "A", newTransactions := 3, randomTransactions := 0, allTransactions := 8,
    invalidTransactions := 1, sentTransactions := 4 }

/-- A world in which the neighbor fetch returns two entries under the one
identifier `A`, the first without transactions, the second with some. -/
def World.samePeerTwice : World :=
  { GetNodeInfo := fun _ => none
    GetNeighbors := fun _ => some [peerA, peerA2]
    zmqSample := none }

/-- The state change of `scrape_nodeinfo` as a function of the fetch outcome. -/
def applyNodeInfo (o : Option (Value × NodeSnapshot)) (e : Exporter) : Exporter :=
  let e := { e with iota_node_info_totalScrapes := e.iota_node_info_totalScrapes.Inc }
  match o with
  | some (elapsed, s) => setNodeInfo e elapsed s
  | none => e

/-- The state change of `scrape_neighbors` as a function of the fetch outcome. -/
def applyNeighbors (o : Option (List NeighborStat)) (e : Exporter) : Exporter :=
  match o with
  | some ns => setNeighbors e ns
  | none => e

/-- The state change of `scrape_zmq` as a function of the sample outcome. -/
def applyZmq (o : Option ZmqStat) (e : Exporter) : Exporter :=
  match o with
  | some z => setZmq e z
  | none => e

/-! ## Lemmas: what the operations do to trace and state -/

theorem scrape_nodeinfo_trace (w : World) (r : Run) (api : API) :
    (scrape_nodeinfo w r api).trace = r.trace ++ [Event.scrape_nodeinfo api] := by
  unfold scrape_nodeinfo
  cases w.GetNodeInfo api <;> rfl

theorem scrape_nodeinfo_exporter (w : World) (r : Run) (api : API) :
    (scrape_nodeinfo w r api).exporter = applyNodeInfo (w.GetNodeInfo api) r.exporter := by
  unfold scrape_nodeinfo applyNodeInfo
  cases w.GetNodeInfo api <;> rfl

theorem scrape_neighbors_trace (w : World) (r : Run) (api : API) :
    (scrape_neighbors w r api).trace = r.trace ++ [Event.scrape_neighbors api] := by
  unfold scrape_neighbors
  cases w.GetNeighbors api <;> rfl

theorem scrape_neighbors_exporter (w : World) (r : Run) (api : API) :
    (scrape_neighbors w r api).exporter = applyNeighbors (w.GetNeighbors api) r.exporter := by
  unfold scrape_neighbors applyNeighbors
  cases w.GetNeighbors api <;> rfl

theorem scrape_zmq_trace (w : World) (r : Run) :
    (scrape_zmq w r).trace = r.trace ++ [Event.scrape_zmq] := by
  unfold scrape_zmq
  cases w.zmqSample <;> rfl

theorem scrape_zmq_exporter (w : World) (r : Run) :
    (scrape_zmq w r).exporter = applyZmq w.zmqSample r.exporter := by
  unfold scrape_zmq applyZmq
  cases w.zmqSample <;> rfl

theorem applyNodeInfo_iriAddress (o : Option (Value × NodeSnapshot)) (e : Exporter) :
    (applyNodeInfo o e).iriAddress = e.iriAddress := by
  unfold applyNodeInfo
  cases o <;> rfl

theorem scrape_trace_eq (w : World) (r : Run) :
    (scrape w r).trace = r.trace ++
      [ Event.scrape,
        Event.NewAPI r.exporter.iriAddress,
        Event.scrape_nodeinfo (NewAPI r.exporter.iriAddress),
        Event.scrape_neighbors (NewAPI r.exporter.iriAddress),
        Event.scrape_zmq ] := by
  simp [scrape, scrape_zmq_trace, scrape_neighbors_trace, scrape_nodeinfo_trace, Run.log]

theorem scrape_exporter_eq (w : World) (r : Run) :
    (scrape w r).exporter =
      applyZmq w.zmqSample
        (applyNeighbors (w.GetNeighbors (NewAPI r.exporter.iriAddress))
          (applyNodeInfo (w.GetNodeInfo (NewAPI r.exporter.iriAddress)) r.exporter)) := by
  simp [scrape, scrape_zmq_exporter, scrape_neighbors_exporter, scrape_nodeinfo_exporter, Run.log]

theorem Collect_exporter_eq (w : World) (r : Run) :
    (Collect w r).exporter = (scrape w r).exporter := by
  simp [Collect, Run.send, Run.collectVec, Run.log]

theorem Collect_trace_eq (w : World) (r : Run) :
    (Collect w r).trace = (scrape w r).trace ++
      [ Member.emit (Member.gauge (scrape w r).exporter.iota_node_info_duration),
        Member.emit (Member.gauge (scrape w r).exporter.iota_node_info_available_processors),
        Member.emit (Member.gauge (scrape w r).exporter.iota_node_info_free_memory),
        Member.emit (Member.gauge (scrape w r).exporter.iota_node_info_max_memory),
        Member.emit (Member.gauge (scrape w r).exporter.iota_node_info_total_memory),
        Member.emit (Member.gauge (scrape w r).exporter.iota_node_info_latest_milestone),
        Member.emit (Member.gauge (scrape w r).exporter.iota_node_info_latest_subtangle_milestone),
        Member.emit (Member.gauge (scrape w r).exporter.iota_node_info_total_neighbors),
        Member.emit (Member.gauge (scrape w r).exporter.iota_node_info_total_tips),
        Member.emit (Member.gauge (scrape w r).exporter.iota_node_info_total_transactions_queued),
        Member.emit (Member.counter (scrape w r).exporter.iota_node_info_totalScrapes),
        Member.emit (Member.gauge (scrape w r).exporter.iota_neighbors_info_total_neighbors),
        Member.emit (Member.gauge (scrape w r).exporter.iota_neighbors_info_active_neighbors),
        Member.emit (Member.vec (scrape w r).exporter.iota_neighbors_new_transactions),
        Member.emit (Member.vec (scrape w r).exporter.iota_neighbors_random_transactions),
        Member.emit (Member.vec (scrape w r).exporter.iota_neighbors_all_transactions),
        Member.emit (Member.vec (scrape w r).exporter.iota_neighbors_invalid_transactions),
        Member.emit (Member.vec (scrape w r).exporter.iota_neighbors_sent_transactions),
        Member.emit (Member.vec (scrape w r).exporter.iota_neighbors_active),
        Member.emit (Member.gauge (scrape w r).exporter.iota_zmq_seen_tx_count),
        Member.emit (Member.gauge (scrape w r).exporter.iota_zmq_txs_with_value_count),
        Member.emit (Member.gauge (scrape w r).exporter.iota_zmq_confirmed_tx_count),
        Member.emit (Member.gauge (scrape w r).exporter.iota_zmq_to_process),
        Member.emit (Member.gauge (scrape w r).exporter.iota_zmq_to_broadcast),
        Member.emit (Member.gauge (scrape w r).exporter.iota_zmq_to_request),
        Member.emit (Member.gauge (scrape w r).exporter.iota_zmq_to_reply),
        Member.emit (Member.gauge (scrape w r).exporter.iota_zmq_total_transactions) ] := by
  simp [Collect, Run.send, Run.collectVec, Run.log, Member.emit, GaugeVec.children]

/-! ## Lemmas: frames of the sub-scrapes -/

theorem foldl_setNeighbor_frame {α : Type} (p : Exporter → α)
    (hp : ∀ e n, p (setNeighbor e n) = p e) (ns : List NeighborStat) (e : Exporter) :
    p (ns.foldl setNeighbor e) = p e := by
  induction ns generalizing e with
  | nil => rfl
  | cons n rest ih => rw [List.foldl_cons, ih, hp]

theorem foldl_setNeighbor_congr {α : Type} (p : Exporter → α)
    (hp : ∀ e e' n, p e = p e' → p (setNeighbor e n) = p (setNeighbor e' n))
    (ns : List NeighborStat) (e e' : Exporter) (h : p e = p e') :
    p (ns.foldl setNeighbor e) = p (ns.foldl setNeighbor e') := by
  induction ns generalizing e e' with
  | nil => exact h
  | cons n rest ih => exact ih _ _ (hp e e' n h)

theorem setNeighbors_frame {α : Type} (p : Exporter → α)
    (hp : ∀ e n, p (setNeighbor e n) = p e)
    (hs : ∀ (e : Exporter) (a b : Value), p { e with
      iota_neighbors_info_total_neighbors := e.iota_neighbors_info_total_neighbors.Set a
      iota_neighbors_info_active_neighbors := e.iota_neighbors_info_active_neighbors.Set b } = p e)
    (ns : List NeighborStat) (e : Exporter) :
    p (setNeighbors e ns) = p e := by
  unfold setNeighbors
  rw [foldl_setNeighbor_frame p hp, hs]

theorem applyNeighbors_frame {α : Type} (p : Exporter → α)
    (hp : ∀ e n, p (setNeighbor e n) = p e)
    (hs : ∀ (e : Exporter) (a b : Value), p { e with
      iota_neighbors_info_total_neighbors := e.iota_neighbors_info_total_neighbors.Set a
      iota_neighbors_info_active_neighbors := e.iota_neighbors_info_active_neighbors.Set b } = p e)
    (o : Option (List NeighborStat)) (e : Exporter) :
    p (applyNeighbors o e) = p e := by
  cases o with
  | none => rfl
  | some ns => exact setNeighbors_frame p hp hs ns e

theorem applyNodeInfo_descs (o : Option (Value × NodeSnapshot)) (e : Exporter) :
    (applyNodeInfo o e).descs = e.descs := by
  cases o <;> rfl

theorem applyNeighbors_descs (o : Option (List NeighborStat)) (e : Exporter) :
    (applyNeighbors o e).descs = e.descs :=
  applyNeighbors_frame Exporter.descs (fun _ _ => rfl) (fun _ _ _ => rfl) o e

theorem applyZmq_descs (o : Option ZmqStat) (e : Exporter) :
    (applyZmq o e).descs = e.descs := by
  cases o <;> rfl

theorem scrape_descs (w : World) (r : Run) : (scrape w r).exporter.descs = r.exporter.descs := by
  rw [scrape_exporter_eq, applyZmq_descs, applyNeighbors_descs, applyNodeInfo_descs]

theorem Collect_descs (w : World) (r : Run) : (Collect w r).exporter.descs = r.exporter.descs := by
  rw [Collect_exporter_eq, scrape_descs]

theorem collects_descs (ws : List World) (r : Run) :
    (collects ws r).exporter.descs = r.exporter.descs := by
  induction ws generalizing r with
  | nil => rfl
  | cons w rest ih =>
    have h := ih (Collect w r)
    rw [Collect_descs] at h
    exact h

theorem reach_descs (addr : String) (ws : List World) :
    (reach addr ws).descs = (NewExporter "").descs :=
  collects_descs ws (Run.start (NewExporter addr))

theorem Describe_eq (e : Exporter) (ch : List Desc) :
    Describe e ch = ch ++
      [ e.iota_node_info_duration.desc,
        e.iota_node_info_available_processors.desc,
        e.iota_node_info_free_memory.desc,
        e.iota_node_info_max_memory.desc,
        e.iota_node_info_total_memory.desc,
        e.iota_node_info_latest_milestone.desc,
        e.iota_node_info_latest_subtangle_milestone.desc,
        e.iota_node_info_total_neighbors.desc,
        e.iota_node_info_total_tips.desc,
        e.iota_node_info_total_transactions_queued.desc,
        e.iota_node_info_totalScrapes.desc,
        e.iota_neighbors_info_total_neighbors.desc,
        e.iota_neighbors_info_active_neighbors.desc,
        e.iota_neighbors_new_transactions.desc,
        e.iota_neighbors_random_transactions.desc,
        e.iota_neighbors_all_transactions.desc,
        e.iota_neighbors_invalid_transactions.desc,
        e.iota_neighbors_sent_transactions.desc,
        e.iota_neighbors_active.desc,
        e.iota_zmq_seen_tx_count.desc,
        e.iota_zmq_txs_with_value_count.desc,
        e.iota_zmq_confirmed_tx_count.desc,
        e.iota_zmq_to_process.desc,
        e.iota_zmq_to_broadcast.desc,
        e.iota_zmq_to_request.desc,
        e.iota_zmq_to_reply.desc,
        e.iota_zmq_total_transactions.desc ] := by
  simp [Describe, GaugeVec.Describe, Gauge.Desc, Counter.Desc]

theorem Describe_congr (e e' : Exporter) (ch : List Desc) (h : e.descs = e'.descs) :
    Describe e ch = Describe e' ch := by
  rw [Describe_eq, Describe_eq]
  simp only [Exporter.descs, Exporter.members, Exporter.nodeInfoMembers,
    Exporter.neighborMembers, Exporter.zmqMembers, Exporter.families, List.map_cons,
    List.map_nil, List.cons_append, List.nil_append, List.map_append, Member.desc,
    List.cons.injEq, and_true] at h
  obtain ⟨h1, h2, h3, h4, h5, h6, h7, h8, h9, h10, h11, h12, h13, h14, h15, h16, h17, h18,
    h19, h20, h21, h22, h23, h24, h25, h26, h27⟩ := h
  simp only [h1, h2, h3, h4, h5, h6, h7, h8, h9, h10, h11, h12, h13, h14, h15, h16, h17, h18,
    h19, h20, h21, h22, h23, h24, h25, h26, h27]

theorem Describe_perm_descs (e : Exporter) : (Describe e []).Perm e.descs := by
  rw [Describe_eq]
  simp only [Exporter.descs, Exporter.members, Exporter.nodeInfoMembers,
    Exporter.neighborMembers, Exporter.zmqMembers, Exporter.families, List.map_cons,
    List.map_nil, List.cons_append, List.nil_append, List.map_append, Member.desc]
  refine List.Perm.cons _ ?_
  iterate 21 refine List.Perm.cons _ ?_
  -- struct order: to_request, to_process, to_broadcast; source order of Describe: to_process,
  -- to_broadcast, to_request
  refine List.Perm.trans (List.Perm.cons _ (List.Perm.swap _ _ _)) ?_
  exact List.Perm.swap _ _ _

theorem NewExporter_names_eq (addr : String) :
    (NewExporter addr).names =
      [ "iota_node_info_duration",
        "iota_node_info_available_processors",
        "iota_node_info_free_memory",
        "iota_node_info_max_memory",
        "iota_node_info_total_memory",
        "iota_node_info_latest_milestone",
        "iota_node_info_latest_subtangle_milestone",
        "iota_node_info_total_neighbors",
        "iota_node_info_total_tips",
        "iota_node_info_total_transactions_queued",
        "iota_node_info_scrapes_total",
        "iota_neighbors_info_total_neighbors",
        "iota_neighbors_info_active_neighbors",
        "iota_neighbors_new_transactions",
        "iota_neighbors_random_transactions",
        "iota_neighbors_all_transactions",
        "iota_neighbors_invalid_transactions",
        "iota_neighbors_sent_transactions",
        "iota_neighbors_active",
        "iota_zmq_seen_tx_count",
        "iota_zmq_txs_with_value_count",
        "iota_zmq_confirmed_tx_count",
        "iota_zmq_to_request",
        "iota_zmq_to_process",
        "iota_zmq_to_broadcast",
        "iota_zmq_to_reply",
        "iota_zmq_total_transactions" ] := rfl

theorem Describe_NewExporter_addr (addr : String) :
    Describe (NewExporter addr) [] = Describe (NewExporter "") [] := rfl

theorem Describe_reach (addr : String) (ws : List World) (ch : List Desc) :
    Describe (reach addr ws) ch = ch ++ Describe (NewExporter "") [] := by
  rw [Describe_congr (reach addr ws) (NewExporter "") ch (reach_descs addr ws), Describe_eq,
    Describe_eq, List.nil_append]

theorem Describe_order (e : Exporter) (ch : List Desc) :
    Describe e ch = ch ++ e.sourceOrder.map Member.desc := by
  rw [Describe_eq]; rfl

theorem Collect_trace_order (w : World) (r : Run) :
    (Collect w r).trace =
      (scrape w r).trace ++ (scrape w r).exporter.sourceOrder.map Member.emit := by
  rw [Collect_trace_eq]; rfl

theorem sourceOrder_perm_members (e : Exporter) : e.sourceOrder.Perm e.members := by
  simp only [Exporter.sourceOrder, Exporter.members, Exporter.nodeInfoMembers,
    Exporter.neighborMembers, Exporter.zmqMembers, Exporter.families, List.map_cons,
    List.map_nil, List.cons_append, List.nil_append]
  refine List.Perm.cons _ ?_
  iterate 21 refine List.Perm.cons _ ?_
  refine List.Perm.trans (List.Perm.cons _ (List.Perm.swap _ _ _)) ?_
  exact List.Perm.swap _ _ _

theorem emit_isEmit (m : Member) : m.emit.isEmit = true := by
  cases m <;> rfl

theorem emit_desc (m : Member) : m.emit.desc? = some m.desc := by
  cases m <;> rfl

theorem emit_sent_desc (m : Member) : ∀ s ∈ m.emit.sent, s.desc = m.desc := by
  cases m with
  | gauge g => intro s hs; simp [Member.emit, Event.sent] at hs; subst hs; rfl
  | counter c => intro s hs; simp [Member.emit, Event.sent] at hs; subst hs; rfl
  | vec v =>
    intro s hs
    simp only [Member.emit, Event.sent, List.mem_map] at hs
    obtain ⟨entry, _, rfl⟩ := hs
    rfl

theorem applyNodeInfo_totalScrapes (o : Option (Value × NodeSnapshot)) (e : Exporter) :
    (applyNodeInfo o e).iota_node_info_totalScrapes = e.iota_node_info_totalScrapes.Inc := by
  cases o <;> rfl

theorem applyNeighbors_totalScrapes (o : Option (List NeighborStat)) (e : Exporter) :
    (applyNeighbors o e).iota_node_info_totalScrapes = e.iota_node_info_totalScrapes :=
  applyNeighbors_frame (fun e => e.iota_node_info_totalScrapes)
    (fun _ _ => rfl) (fun _ _ _ => rfl) o e

theorem applyZmq_totalScrapes (o : Option ZmqStat) (e : Exporter) :
    (applyZmq o e).iota_node_info_totalScrapes = e.iota_node_info_totalScrapes := by
  cases o <;> rfl

theorem scrape_totalScrapes (w : World) (r : Run) :
    (scrape w r).exporter.iota_node_info_totalScrapes =
      r.exporter.iota_node_info_totalScrapes.Inc := by
  rw [scrape_exporter_eq, applyZmq_totalScrapes, applyNeighbors_totalScrapes,
    applyNodeInfo_totalScrapes]

theorem applyNodeInfo_neighborMembers (o : Option (Value × NodeSnapshot)) (e : Exporter) :
    (applyNodeInfo o e).neighborMembers = e.neighborMembers := by
  cases o <;> rfl

theorem applyNodeInfo_zmqMembers (o : Option (Value × NodeSnapshot)) (e : Exporter) :
    (applyNodeInfo o e).zmqMembers = e.zmqMembers := by
  cases o <;> rfl

theorem applyZmq_nodeInfoMembers (o : Option ZmqStat) (e : Exporter) :
    (applyZmq o e).nodeInfoMembers = e.nodeInfoMembers := by
  cases o <;> rfl

theorem applyZmq_neighborMembers (o : Option ZmqStat) (e : Exporter) :
    (applyZmq o e).neighborMembers = e.neighborMembers := by
  cases o <;> rfl

theorem applyNeighbors_nodeInfoMembers (o : Option (List NeighborStat)) (e : Exporter) :
    (applyNeighbors o e).nodeInfoMembers = e.nodeInfoMembers :=
  applyNeighbors_frame Exporter.nodeInfoMembers (fun _ _ => rfl) (fun _ _ _ => rfl) o e

theorem applyNeighbors_zmqMembers (o : Option (List NeighborStat)) (e : Exporter) :
    (applyNeighbors o e).zmqMembers = e.zmqMembers :=
  applyNeighbors_frame Exporter.zmqMembers (fun _ _ => rfl) (fun _ _ _ => rfl) o e

theorem setNeighbor_neighborMembers_congr (e e' : Exporter) (n : NeighborStat)
    (h : e.neighborMembers = e'.neighborMembers) :
    (setNeighbor e n).neighborMembers = (setNeighbor e' n).neighborMembers := by
  simp only [Exporter.neighborMembers, Exporter.families, List.map_cons, List.map_nil,
    List.cons_append, List.nil_append, List.cons.injEq, Member.gauge.injEq, Member.vec.injEq,
    and_true] at h
  obtain ⟨h1, h2, h3, h4, h5, h6, h7, h8⟩ := h
  simp only [Exporter.neighborMembers, Exporter.families, setNeighbor, h1, h2, h3, h4, h5, h6,
    h7, h8]

theorem applyNeighbors_neighborMembers_congr (o : Option (List NeighborStat))
    (e e' : Exporter) (h : e.neighborMembers = e'.neighborMembers) :
    (applyNeighbors o e).neighborMembers = (applyNeighbors o e').neighborMembers := by
  cases o with
  | none => exact h
  | some ns =>
    refine foldl_setNeighbor_congr Exporter.neighborMembers setNeighbor_neighborMembers_congr
      ns _ _ ?_
    simp only [Exporter.neighborMembers, Exporter.families, List.map_cons, List.map_nil,
      List.cons_append, List.nil_append, List.cons.injEq, Member.gauge.injEq, Member.vec.injEq,
      and_true] at h
    obtain ⟨h1, h2, h3, h4, h5, h6, h7, h8⟩ := h
    simp only [Exporter.neighborMembers, Exporter.families, h1, h2, h3, h4, h5, h6, h7, h8]

theorem applyZmq_zmqMembers_congr (o : Option ZmqStat) (e e' : Exporter)
    (h : e.zmqMembers = e'.zmqMembers) :
    (applyZmq o e).zmqMembers = (applyZmq o e').zmqMembers := by
  cases o with
  | none => exact h
  | some z =>
    simp only [Exporter.zmqMembers, List.cons.injEq, Member.gauge.injEq, and_true] at h
    obtain ⟨h1, h2, h3, h4, h5, h6, h7, h8⟩ := h
    simp only [applyZmq, Exporter.zmqMembers, setZmq, h1, h2, h3, h4, h5, h6, h7, h8]

theorem scrape_nodeInfoMembers (w : World) (r : Run) :
    (scrape w r).exporter.nodeInfoMembers =
      (applyNodeInfo (w.GetNodeInfo (NewAPI r.exporter.iriAddress)) r.exporter).nodeInfoMembers := by
  rw [scrape_exporter_eq, applyZmq_nodeInfoMembers, applyNeighbors_nodeInfoMembers]

theorem scrape_neighborMembers (w : World) (r : Run) :
    (scrape w r).exporter.neighborMembers =
      (applyNeighbors (w.GetNeighbors (NewAPI r.exporter.iriAddress)) r.exporter).neighborMembers := by
  rw [scrape_exporter_eq, applyZmq_neighborMembers]
  exact applyNeighbors_neighborMembers_congr _ _ _ (applyNodeInfo_neighborMembers _ _)

theorem scrape_zmqMembers (w : World) (r : Run) :
    (scrape w r).exporter.zmqMembers = (applyZmq w.zmqSample r.exporter).zmqMembers := by
  rw [scrape_exporter_eq]
  refine applyZmq_zmqMembers_congr _ _ _ ?_
  rw [applyNeighbors_zmqMembers, applyNodeInfo_zmqMembers]

/-! ## Lemmas: the label-keyed store -/

theorem getEntry_setEntry_same (k : List String) (x : Value) (m : List (List String × Value)) :
    getEntry k (setEntry k x m) = some x := by
  induction m with
  | nil => simp [setEntry, getEntry]
  | cons hd rest ih =>
    obtain ⟨k0, y⟩ := hd
    by_cases h : k0 = k
    · simp [setEntry, getEntry, h]
    · simp [setEntry, getEntry, h, ih]

theorem getEntry_setEntry_other (k k2 : List String) (x : Value)
    (m : List (List String × Value)) (hne : k2 ≠ k) :
    getEntry k2 (setEntry k x m) = getEntry k2 m := by
  induction m with
  | nil => simp [setEntry, getEntry, Ne.symm hne]
  | cons hd rest ih =>
    obtain ⟨k0, y⟩ := hd
    by_cases h : k0 = k
    · subst h
      simp [setEntry, getEntry, Ne.symm hne]
    · by_cases h2 : k0 = k2
      · subst h2
        simp [setEntry, getEntry, h]
      · simp [setEntry, getEntry, h, h2, ih]

theorem keys_setEntry (k : List String) (x : Value) (m : List (List String × Value)) :
    (setEntry k x m).map Prod.fst =
      if k ∈ m.map Prod.fst then m.map Prod.fst else m.map Prod.fst ++ [k] := by
  induction m with
  | nil => simp [setEntry]
  | cons hd rest ih =>
    obtain ⟨k0, y⟩ := hd
    by_cases h : k0 = k
    · subst h
      simp [setEntry]
    · have h2 : ¬ k = k0 := fun hh => h hh.symm
      by_cases h3 : k ∈ rest.map Prod.fst
      · simp only [setEntry, h, if_false, List.map_cons, ih, h3, if_true, List.mem_cons,
          or_true]
      · simp only [setEntry, h, if_false, List.map_cons, ih, h3, List.mem_cons, h2, or_self,
          List.cons_append]

theorem mem_keys_setEntry (k : List String) (x : Value) (m : List (List String × Value)) :
    k ∈ (setEntry k x m).map Prod.fst := by
  rw [keys_setEntry]
  by_cases h : k ∈ m.map Prod.fst
  · simp [h]
  · simp [h]

theorem mem_keys_setEntry_of_mem (k k2 : List String) (x : Value)
    (m : List (List String × Value)) (h : k2 ∈ m.map Prod.fst) :
    k2 ∈ (setEntry k x m).map Prod.fst := by
  rw [keys_setEntry]
  by_cases h3 : k ∈ m.map Prod.fst
  · simp only [h3, if_true]; exact h
  · simp only [h3, if_false]; exact List.mem_append_left _ h

theorem keyed_SetWithLabelValues (v : GaugeVec) (A : String) (x : Value) (h : v.keyed) :
    (v.SetWithLabelValues [A] x).keyed := by
  obtain ⟨hnd, hlen⟩ := h
  unfold GaugeVec.keyed GaugeVec.keys GaugeVec.SetWithLabelValues at *
  simp only [keys_setEntry]
  by_cases h3 : [A] ∈ v.metrics.map Prod.fst
  · simp only [h3, if_true]
    exact ⟨hnd, hlen⟩
  · simp only [h3, if_false]
    refine ⟨?_, ?_⟩
    · rw [List.nodup_append]
      refine ⟨hnd, List.nodup_singleton _, ?_⟩
      intro a ha hb
      rw [List.mem_singleton] at hb
      subst hb
      exact h3 ha
    · intro k hk
      rcases List.mem_append.mp hk with h4 | h4
      · exact hlen k h4
      · rw [List.mem_singleton] at h4
        subst h4
        rfl

theorem getEntry_isSome_of_mem (k : List String) (m : List (List String × Value))
    (h : k ∈ m.map Prod.fst) : (getEntry k m).isSome = true := by
  induction m with
  | nil => simp at h
  | cons hd rest ih =>
    obtain ⟨k0, y⟩ := hd
    by_cases h2 : k0 = k
    · simp [getEntry, h2]
    · have h3 : k ∈ rest.map Prod.fst := by
        simp only [List.map_cons, List.mem_cons] at h
        rcases h with h | h
        · exact absurd h.symm h2
        · exact h
      simp [getEntry, h2, ih h3]

theorem filter_children_of_not_mem (v : GaugeVec) (A : String)
    (hl : v.desc.variableLabels = ["id"]) (m : List (List String × Value))
    (hlen : ∀ k ∈ m.map Prod.fst, k.length = 1) (hA : [A] ∉ m.map Prod.fst) :
    (m.map v.child).filter (labelled A) = [] := by
  induction m with
  | nil => rfl
  | cons hd rest ih =>
    obtain ⟨k0, y⟩ := hd
    have hk0 : k0.length = 1 := hlen k0 (by simp)
    obtain ⟨a, rfl⟩ := List.length_eq_one.mp hk0
    have hne : a ≠ A := by
      intro h
      subst h
      exact hA (by simp)
    have hrest : [A] ∉ rest.map Prod.fst := fun h => hA (by simp [h])
    have ih2 := ih (fun k hk => hlen k (by simp [hk])) hrest
    simp [GaugeVec.child, labelled, hl, hne] at ih2 ⊢
    exact ih2

theorem filter_children_of_mem (v : GaugeVec) (A : String)
    (hl : v.desc.variableLabels = ["id"]) (m : List (List String × Value))
    (hnd : (m.map Prod.fst).Nodup)
    (hlen : ∀ k ∈ m.map Prod.fst, k.length = 1) (hA : [A] ∈ m.map Prod.fst) :
    (m.map v.child).filter (labelled A) =
      [{ desc := v.desc, kind := MetricKind.gauge, labels := [("id", A)],
         value := (getEntry [A] m).getD 0 }] := by
  induction m with
  | nil => simp at hA
  | cons hd rest ih =>
    obtain ⟨k0, y⟩ := hd
    have hk0 : k0.length = 1 := hlen k0 (by simp)
    obtain ⟨a, rfl⟩ := List.length_eq_one.mp hk0
    have hlen2 : ∀ k ∈ rest.map Prod.fst, k.length = 1 := fun k hk => hlen k (by simp [hk])
    simp only [List.map_cons, List.nodup_cons] at hnd
    by_cases h : a = A
    · subst h
      have h0 := filter_children_of_not_mem v a hl rest hlen2 hnd.1
      simp [GaugeVec.child, labelled, hl, getEntry] at h0 ⊢
      exact h0
    · have hmem : [A] ∈ rest.map Prod.fst := by
        simp only [List.map_cons, List.mem_cons] at hA
        rcases hA with hA | hA
        · exact absurd (List.cons.inj hA).1.symm h
        · exact hA
      have ih2 := ih hnd.2 hlen2 hmem
      simp [GaugeVec.child, labelled, hl, getEntry, h] at ih2 ⊢
      exact ih2

theorem filter_children_keyed (v : GaugeVec) (A : String)
    (hl : v.desc.variableLabels = ["id"]) (hk : v.keyed) (hA : [A] ∈ v.keys) :
    v.children.filter (labelled A) = [v.sampleOf A] :=
  filter_children_of_mem v A hl v.metrics hk.1 hk.2 hA

/-! ## Lemmas: the invariant of reachable states -/

theorem NewExporter_Inv (addr : String) : (NewExporter addr).Inv := by
  refine ⟨rfl, ?_⟩
  intro v hv
  simp only [Exporter.families, NewExporter, List.mem_cons, List.mem_singleton,
    List.not_mem_nil, or_false] at hv
  rcases hv with h | h | h | h | h | h <;> subst h <;>
    exact ⟨List.nodup_nil, fun k hk => absurd hk (List.not_mem_nil k)⟩

theorem setNeighbor_families_keyed (e : Exporter) (n : NeighborStat)
    (h : ∀ v ∈ e.families, v.keyed) : ∀ v ∈ (setNeighbor e n).families, v.keyed := by
  intro v hv
  simp only [Exporter.families, setNeighbor, List.mem_cons, List.mem_singleton,
    List.not_mem_nil, or_false] at hv
  rcases hv with h1 | h1 | h1 | h1 | h1 | h1 <;> subst h1 <;>
    exact keyed_SetWithLabelValues _ _ _ (h _ (by simp [Exporter.families]))

theorem foldl_setNeighbor_families_keyed (ns : List NeighborStat) (e : Exporter)
    (h : ∀ v ∈ e.families, v.keyed) : ∀ v ∈ (ns.foldl setNeighbor e).families, v.keyed := by
  induction ns generalizing e with
  | nil => exact h
  | cons n rest ih => exact ih _ (setNeighbor_families_keyed e n h)

theorem applyNeighbors_families_keyed (o : Option (List NeighborStat)) (e : Exporter)
    (h : ∀ v ∈ e.families, v.keyed) : ∀ v ∈ (applyNeighbors o e).families, v.keyed := by
  cases o with
  | none => exact h
  | some ns => exact foldl_setNeighbor_families_keyed ns _ h

theorem applyNodeInfo_families (o : Option (Value × NodeSnapshot)) (e : Exporter) :
    (applyNodeInfo o e).families = e.families := by
  cases o <;> rfl

theorem applyZmq_families (o : Option ZmqStat) (e : Exporter) :
    (applyZmq o e).families = e.families := by
  cases o <;> rfl

theorem scrape_Inv (w : World) (r : Run) (h : r.exporter.Inv) : (scrape w r).exporter.Inv := by
  refine ⟨(scrape_descs w r).trans h.1, ?_⟩
  rw [scrape_exporter_eq, applyZmq_families]
  refine applyNeighbors_families_keyed _ _ ?_
  rw [applyNodeInfo_families]
  exact h.2

theorem Collect_Inv (w : World) (r : Run) (h : r.exporter.Inv) : (Collect w r).exporter.Inv := by
  rw [Collect_exporter_eq]
  exact scrape_Inv w r h

theorem collects_Inv (ws : List World) (r : Run) (h : r.exporter.Inv) :
    (collects ws r).exporter.Inv := by
  induction ws generalizing r with
  | nil => exact h
  | cons w rest ih => exact ih (Collect w r) (Collect_Inv w r h)

theorem reach_Inv (addr : String) (ws : List World) : (reach addr ws).Inv :=
  collects_Inv ws (Run.start (NewExporter addr)) (NewExporter_Inv addr)

theorem scrape_iriAddress (w : World) (r : Run) :
    (scrape w r).exporter.iriAddress = r.exporter.iriAddress := by
  rw [scrape_exporter_eq]
  have h1 : ∀ (o : Option ZmqStat) (e : Exporter), (applyZmq o e).iriAddress = e.iriAddress := by
    intro o e; cases o <;> rfl
  rw [h1, applyNeighbors_frame (fun e => e.iriAddress) (fun _ _ => rfl) (fun _ _ _ => rfl),
    applyNodeInfo_iriAddress]

theorem collects_iriAddress (ws : List World) (r : Run) :
    (collects ws r).exporter.iriAddress = r.exporter.iriAddress := by
  induction ws generalizing r with
  | nil => rfl
  | cons w rest ih =>
    have h := ih (Collect w r)
    rw [Collect_exporter_eq, scrape_iriAddress] at h
    exact h

theorem reach_iriAddress (addr : String) (ws : List World) :
    (reach addr ws).iriAddress = addr :=
  collects_iriAddress ws (Run.start (NewExporter addr))

theorem Inv_family_descs (e : Exporter) (h : e.Inv) :
    e.iota_neighbors_new_transactions.desc = (NewExporter "").iota_neighbors_new_transactions.desc ∧
    e.iota_neighbors_random_transactions.desc =
      (NewExporter "").iota_neighbors_random_transactions.desc ∧
    e.iota_neighbors_all_transactions.desc = (NewExporter "").iota_neighbors_all_transactions.desc ∧
    e.iota_neighbors_invalid_transactions.desc =
      (NewExporter "").iota_neighbors_invalid_transactions.desc ∧
    e.iota_neighbors_sent_transactions.desc =
      (NewExporter "").iota_neighbors_sent_transactions.desc ∧
    e.iota_neighbors_active.desc = (NewExporter "").iota_neighbors_active.desc := by
  have h1 := h.1
  simp only [Exporter.descs, Exporter.members, Exporter.nodeInfoMembers,
    Exporter.neighborMembers, Exporter.zmqMembers, Exporter.families, List.map_cons,
    List.map_nil, List.cons_append, List.nil_append, List.map_append, Member.desc,
    List.cons.injEq, and_true] at h1
  obtain ⟨_, _, _, _, _, _, _, _, _, _, _, _, _, h14, h15, h16, h17, h18, h19, _⟩ := h1
  exact ⟨h14, h15, h16, h17, h18, h19⟩

theorem yielded_eq (w : World) (e : Exporter) :
    yielded w e =
      (scrape w (Run.start e)).exporter.sourceOrder.flatMap (fun m => m.emit.sent) := by
  have ht : (Run.start e).trace = [] := rfl
  unfold yielded sentOf
  rw [Collect_trace_order, scrape_trace_eq, ht, List.nil_append, List.flatMap_append,
    List.flatMap_map]
  rfl

theorem filter_labelled_emitted (e : Exporter) (A : String) (hInv : e.Inv)
    (hA : ∀ v ∈ e.families, [A] ∈ v.keys) :
    (e.sourceOrder.flatMap (fun m => m.emit.sent)).filter (labelled A) =
      e.families.map (fun v => v.sampleOf A) := by
  obtain ⟨d1, d2, d3, d4, d5, d6⟩ := Inv_family_descs e hInv
  have hk := hInv.2
  have f1 : (e.iota_neighbors_new_transactions.metrics.map
      e.iota_neighbors_new_transactions.child).filter (labelled A) =
      [e.iota_neighbors_new_transactions.sampleOf A] :=
    filter_children_keyed _ A (by rw [d1]; rfl) (hk _ (by simp [Exporter.families]))
      (hA _ (by simp [Exporter.families]))
  have f2 : (e.iota_neighbors_random_transactions.metrics.map
      e.iota_neighbors_random_transactions.child).filter (labelled A) =
      [e.iota_neighbors_random_transactions.sampleOf A] :=
    filter_children_keyed _ A (by rw [d2]; rfl) (hk _ (by simp [Exporter.families]))
      (hA _ (by simp [Exporter.families]))
  have f3 : (e.iota_neighbors_all_transactions.metrics.map
      e.iota_neighbors_all_transactions.child).filter (labelled A) =
      [e.iota_neighbors_all_transactions.sampleOf A] :=
    filter_children_keyed _ A (by rw [d3]; rfl) (hk _ (by simp [Exporter.families]))
      (hA _ (by simp [Exporter.families]))
  have f4 : (e.iota_neighbors_invalid_transactions.metrics.map
      e.iota_neighbors_invalid_transactions.child).filter (labelled A) =
      [e.iota_neighbors_invalid_transactions.sampleOf A] :=
    filter_children_keyed _ A (by rw [d4]; rfl) (hk _ (by simp [Exporter.families]))
      (hA _ (by simp [Exporter.families]))
  have f5 : (e.iota_neighbors_sent_transactions.metrics.map
      e.iota_neighbors_sent_transactions.child).filter (labelled A) =
      [e.iota_neighbors_sent_transactions.sampleOf A] :=
    filter_children_keyed _ A (by rw [d5]; rfl) (hk _ (by simp [Exporter.families]))
      (hA _ (by simp [Exporter.families]))
  have f6 : (e.iota_neighbors_active.metrics.map
      e.iota_neighbors_active.child).filter (labelled A) =
      [e.iota_neighbors_active.sampleOf A] :=
    filter_children_keyed _ A (by rw [d6]; rfl) (hk _ (by simp [Exporter.families]))
      (hA _ (by simp [Exporter.families]))
  have g : ∀ g : Gauge, labelled A g.Metric = false := fun _ => rfl
  have c : ∀ c : Counter, labelled A c.Metric = false := fun _ => rfl
  simp only [Exporter.sourceOrder, Exporter.families, List.flatMap_cons, List.flatMap_nil,
    Member.emit, Event.sent, List.filter_append, List.filter_cons, List.filter_nil, g, c,
    f1, f2, f3, f4, f5, f6, List.append_nil, List.nil_append, List.cons_append, List.map_cons,
    List.map_nil, Bool.false_eq_true, if_false]

/-! ## Lemmas: what the neighbor sub-scrape stores -/

theorem setNeighbor_mem_keys (e : Exporter) (n : NeighborStat) :
    ∀ v ∈ (setNeighbor e n).families, [n.id] ∈ v.keys := by
  intro v hv
  simp only [Exporter.families, setNeighbor, List.mem_cons, List.mem_singleton,
    List.not_mem_nil, or_false] at hv
  rcases hv with h1 | h1 | h1 | h1 | h1 | h1 <;> subst h1 <;> exact mem_keys_setEntry _ _ _

theorem setNeighbor_keeps_keys (e : Exporter) (n : NeighborStat) (k : List String)
    (h : ∀ v ∈ e.families, k ∈ v.keys) : ∀ v ∈ (setNeighbor e n).families, k ∈ v.keys := by
  intro v hv
  simp only [Exporter.families, setNeighbor, List.mem_cons, List.mem_singleton,
    List.not_mem_nil, or_false] at hv
  rcases hv with h1 | h1 | h1 | h1 | h1 | h1 <;> subst h1 <;>
    exact mem_keys_setEntry_of_mem _ _ _ _ (h _ (by simp [Exporter.families]))

theorem foldl_setNeighbor_keeps_keys (ns : List NeighborStat) (e : Exporter) (k : List String)
    (h : ∀ v ∈ e.families, k ∈ v.keys) :
    ∀ v ∈ (ns.foldl setNeighbor e).families, k ∈ v.keys := by
  induction ns generalizing e with
  | nil => exact h
  | cons n rest ih => exact ih _ (setNeighbor_keeps_keys e n k h)

theorem foldl_setNeighbor_mem_keys (ns : List NeighborStat) (n : NeighborStat) (hn : n ∈ ns)
    (e : Exporter) : ∀ v ∈ (ns.foldl setNeighbor e).families, [n.id] ∈ v.keys := by
  induction ns generalizing e with
  | nil => simp at hn
  | cons m rest ih =>
    rcases List.mem_cons.mp hn with h | h
    · subst h
      exact foldl_setNeighbor_keeps_keys rest _ _ (setNeighbor_mem_keys e n)
    · exact ih h _

theorem foldl_setNeighbor_active_frame (k : String) (ns : List NeighborStat)
    (hk : k ∉ ns.map NeighborStat.id) (e : Exporter) :
    (ns.foldl setNeighbor e).iota_neighbors_active.get [k] = e.iota_neighbors_active.get [k] := by
  induction ns generalizing e with
  | nil => rfl
  | cons m rest ih =>
    have h1 : k ∉ rest.map NeighborStat.id := fun h => hk (by simp [h])
    have h2 : k ≠ m.id := fun h => hk (by simp [h])
    have h3 : [k] ≠ [m.id] := fun h => h2 (List.cons.inj h).1
    rw [List.foldl_cons, ih h1]
    exact getEntry_setEntry_other _ _ _ _ h3

theorem foldl_setNeighbor_active_get (k : String) (x : Value) (ns : List NeighborStat)
    (hx : ∀ m ∈ ns, m.id = k → activeFlag m = x) (hk : k ∈ ns.map NeighborStat.id)
    (e : Exporter) :
    (ns.foldl setNeighbor e).iota_neighbors_active.get [k] = some x := by
  induction ns generalizing e with
  | nil => simp at hk
  | cons m rest ih =>
    by_cases h : k ∈ rest.map NeighborStat.id
    · exact ih (fun m2 hm2 => hx m2 (List.mem_cons_of_mem _ hm2)) h _
    · have hm : m.id = k := by
        simp only [List.map_cons, List.mem_cons] at hk
        rcases hk with h1 | h1
        · exact h1.symm
        · exact absurd h1 h
      have hflag : activeFlag m = x := hx m (List.mem_cons_self _ _) hm
      rw [List.foldl_cons, foldl_setNeighbor_active_frame k rest h, ← hm, ← hflag]
      exact getEntry_setEntry_same _ _ _

theorem activeFlag_eq_of_agree (m n : NeighborStat)
    (h : m.allTransactions = 0 ↔ n.allTransactions = 0) : activeFlag m = activeFlag n := by
  unfold activeFlag
  by_cases hm : m.allTransactions = 0
  · rw [if_pos hm, if_pos (h.mp hm)]
  · rw [if_neg hm, if_neg (fun hn => hm (h.mpr hn))]

theorem scrape_active_get (addr : String) (ws : List World) (w : World)
    (ns : List NeighborStat) (n : NeighborStat)
    (hfetch : w.GetNeighbors (NewAPI addr) = some ns)
    (hagree : ∀ m ∈ ns, m.id = n.id → (m.allTransactions = 0 ↔ n.allTransactions = 0))
    (hn : n ∈ ns) :
    (scrape w (Run.start (reach addr ws))).exporter.iota_neighbors_active.get [n.id] =
      some (activeFlag n) := by
  have h1 : ∀ (o : Option ZmqStat) (e : Exporter),
      (applyZmq o e).iota_neighbors_active = e.iota_neighbors_active := by
    intro o e; cases o <;> rfl
  have h2 : (Run.start (reach addr ws)).exporter = reach addr ws := rfl
  rw [scrape_exporter_eq, h1, h2, reach_iriAddress, hfetch]
  exact foldl_setNeighbor_active_get n.id (activeFlag n) ns
    (fun m hm hid => activeFlag_eq_of_agree m n (hagree m hm hid))
    (List.mem_map.mpr ⟨n, hn, rfl⟩) _

theorem scrape_mem_keys (addr : String) (ws : List World) (w : World)
    (ns : List NeighborStat) (n : NeighborStat)
    (hfetch : w.GetNeighbors (NewAPI addr) = some ns) (hn : n ∈ ns) :
    ∀ v ∈ (scrape w (Run.start (reach addr ws))).exporter.families, [n.id] ∈ v.keys := by
  have h2 : (Run.start (reach addr ws)).exporter = reach addr ws := rfl
  rw [scrape_exporter_eq, applyZmq_families, h2, reach_iriAddress, hfetch]
  exact foldl_setNeighbor_mem_keys ns n hn _

theorem yielded_filter_labelled (addr : String) (ws : List World) (w : World) (A : String)
    (hA : ∀ v ∈ (scrape w (Run.start (reach addr ws))).exporter.families, [A] ∈ v.keys) :
    (yielded w (reach addr ws)).filter (labelled A) =
      (scrape w (Run.start (reach addr ws))).exporter.families.map (fun v => v.sampleOf A) := by
  rw [yielded_eq]
  exact filter_labelled_emitted _ A (scrape_Inv w _ (reach_Inv addr ws)) hA

/-! ## The claims -/

/-- C3: for every node address the 27 metric names `NewExporter` assigns are
pairwise distinct; they are the same 27 names for every address (listed here in
struct order) and stay the same through any number of `Collect` invocations. -/
theorem NewExporter_names_distinct_and_fixed (addr : String) :
    (NewExporter addr).names.length = 27 ∧
    (NewExporter addr).names.Nodup ∧
    (∀ addr2 : String, (NewExporter addr2).names = (NewExporter addr).names) ∧
    (∀ ws : List World, (reach addr ws).names = (NewExporter addr).names) ∧
    (NewExporter addr).names =
      [ "iota_node_info_duration",
        "iota_node_info_available_processors",
        "iota_node_info_free_memory",
        "iota_node_info_max_memory",
        "iota_node_info_total_memory",
        "iota_node_info_latest_milestone",
        "iota_node_info_latest_subtangle_milestone",
        "iota_node_info_total_neighbors",
        "iota_node_info_total_tips",
        "iota_node_info_total_transactions_queued",
        "iota_node_info_scrapes_total",
        "iota_neighbors_info_total_neighbors",
        "iota_neighbors_info_active_neighbors",
        "iota_neighbors_new_transactions",
        "iota_neighbors_random_transactions",
        "iota_neighbors_all_transactions",
        "iota_neighbors_invalid_transactions",
        "iota_neighbors_sent_transactions",
        "iota_neighbors_active",
        "iota_zmq_seen_tx_count",
        "iota_zmq_txs_with_value_count",
        "iota_zmq_confirmed_tx_count",
        "iota_zmq_to_request",
        "iota_zmq_to_process",
        "iota_zmq_to_broadcast",
        "iota_zmq_to_reply",
        "iota_zmq_total_transactions" ] := by
  refine ⟨?_, ?_, ?_, ?_, NewExporter_names_eq addr⟩
  · rw [NewExporter_names_eq]; rfl
  · rw [NewExporter_names_eq]; decide
  · intro addr2; rfl
  · intro ws
    unfold Exporter.names
    rw [reach_descs]; rfl

/-- C10 (evaluation of the code): `NewExporter` gives the family
`iota_neighbors_sent_transactions` the help text of
`iota_neighbors_invalid_transactions`, so the 27 help texts are not pairwise
distinct; the other 26 help texts are. -/
theorem NewExporter_sent_help_is_invalid_help (addr : String) :
    (NewExporter addr).iota_neighbors_sent_transactions.desc.help =
      "Number of Invalid Transactions for a specific Neighbor." ∧
    (NewExporter addr).iota_neighbors_sent_transactions.desc.help =
      (NewExporter addr).iota_neighbors_invalid_transactions.desc.help ∧
    ¬ (NewExporter addr).helps.Nodup ∧
    ((NewExporter addr).helps.eraseIdx 17).Nodup := by
  have h : (NewExporter addr).helps = (NewExporter "").helps := rfl
  refine ⟨rfl, rfl, ?_, ?_⟩
  · rw [h]; decide
  · rw [h]; decide

/-- C2: `Describe` emits exactly 27 descriptors, pairwise distinct, one for each
metric field `NewExporter` builds (20 gauges, the counter and six families); what
it emits is
the same for every address and after any number of `Collect` invocations against
any worlds, whatever was scraped. -/
theorem Describe_full_static_set (addr : String) (ws : List World) (ch : List Desc) :
    Describe (reach addr ws) ch = ch ++ Describe (NewExporter addr) [] ∧
    (∀ addr2 : String, Describe (NewExporter addr2) [] = Describe (NewExporter addr) []) ∧
    (Describe (NewExporter addr) []).length = 27 ∧
    (Describe (NewExporter addr) []).Nodup ∧
    (Describe (NewExporter addr) []).Perm ((NewExporter addr).members.map Member.desc) ∧
    ((NewExporter addr).members.filter Member.isGauge).length = 20 ∧
    ((NewExporter addr).members.filter Member.isCounter).length = 1 ∧
    ((NewExporter addr).members.filter Member.isVec).length = 6 := by
  refine ⟨?_, ?_, ?_, ?_, ?_, rfl, rfl, rfl⟩
  · rw [Describe_reach]; rfl
  · intro addr2; rfl
  · rw [Describe_NewExporter_addr]; rfl
  · rw [Describe_NewExporter_addr]; decide
  · exact Describe_perm_descs (NewExporter addr)

/-- C5: whatever the world answers, one invocation of `scrape` adds to the trace
exactly these calls in this order: the construction of one API client from the
configured node address, `scrape_nodeinfo` with that client, `scrape_neighbors`
with that same client, `scrape_zmq`; each once. -/
theorem scrape_three_operations_in_order (w : World) (r : Run) :
    (scrape w r).trace = r.trace ++
      [ Event.scrape,
        Event.NewAPI r.exporter.iriAddress,
        Event.scrape_nodeinfo (NewAPI r.exporter.iriAddress),
        Event.scrape_neighbors (NewAPI r.exporter.iriAddress),
        Event.scrape_zmq ] ∧
    (scrape w r).exporter =
      applyZmq w.zmqSample
        (applyNeighbors (w.GetNeighbors (NewAPI r.exporter.iriAddress))
          (applyNodeInfo (w.GetNodeInfo (NewAPI r.exporter.iriAddress)) r.exporter)) :=
  ⟨scrape_trace_eq w r, scrape_exporter_eq w r⟩

/-- C1: for every exporter state and world, `Collect` adds to the trace first the
one entry into `scrape` with its calls, and only then the emissions; the
emissions are, up to order, exactly one per metric field of the struct `Exporter`
in its state after the scrape (20 gauges, the counter and six families); a family
emits one metric per entry it stores. -/
theorem Collect_scrapes_once_then_emits_every_metric (w : World) (r : Run) :
    ∃ emits : List Event,
      (Collect w r).trace = r.trace ++
        ([ Event.scrape,
           Event.NewAPI r.exporter.iriAddress,
           Event.scrape_nodeinfo (NewAPI r.exporter.iriAddress),
           Event.scrape_neighbors (NewAPI r.exporter.iriAddress),
           Event.scrape_zmq ] ++ emits) ∧
      (Collect w r).exporter = (scrape w r).exporter ∧
      emits.Perm ((Collect w r).exporter.members.map Member.emit) ∧
      (∀ ev ∈ emits, ev.isEmit = true ∧ ev ≠ Event.scrape) ∧
      ((Collect w r).exporter.members.filter Member.isGauge).length = 20 ∧
      ((Collect w r).exporter.members.filter Member.isCounter).length = 1 ∧
      ((Collect w r).exporter.members.filter Member.isVec).length = 6 ∧
      (∀ v ∈ (Collect w r).exporter.families, ∃ ms : List Sample,
        Event.collectVec v.desc ms ∈ emits ∧
        ms.length = v.keys.length ∧
        ms = v.metrics.map (fun entry =>
          { desc := v.desc, kind := MetricKind.gauge,
            labels := v.desc.variableLabels.zip entry.1, value := entry.2 })) ∧
      (sentOf emits).length =
        21 + ((Collect w r).exporter.families.map (fun v => v.keys.length)).sum := by
  refine ⟨(scrape w r).exporter.sourceOrder.map Member.emit, ?_, Collect_exporter_eq w r,
    ?_, ?_, rfl, rfl, rfl, ?_, ?_⟩
  · rw [Collect_trace_order, scrape_trace_eq, List.append_assoc]
  · rw [Collect_exporter_eq]
    exact (sourceOrder_perm_members _).map _
  · intro ev hev
    obtain ⟨m, _, rfl⟩ := List.mem_map.mp hev
    refine ⟨emit_isEmit m, ?_⟩
    intro h
    have h2 := emit_isEmit m
    rw [h] at h2
    exact Bool.noConfusion h2
  · rw [Collect_exporter_eq]
    intro v hv
    refine ⟨v.metrics.map v.child, ?_, by simp [GaugeVec.keys], rfl⟩
    have hm : Member.vec v ∈ (scrape w r).exporter.sourceOrder := by
      simp only [Exporter.families, List.mem_cons, List.mem_singleton, List.not_mem_nil,
        or_false] at hv
      rcases hv with h | h | h | h | h | h <;> subst h <;> simp [Exporter.sourceOrder]
    exact List.mem_map.mpr ⟨Member.vec v, hm, rfl⟩
  · rw [Collect_exporter_eq]
    simp [sentOf, Exporter.sourceOrder, Member.emit, Event.sent, Exporter.families,
      GaugeVec.keys, Gauge.Metric]
    omega

/-- C6: for every exporter state and every world (so every outcome of the
node-info fetch, of the neighbor fetch and of the feed sample), one invocation of
`Collect` raises the total-scrapes counter by exactly 1, and the counter metric it
emits carries the raised value. -/
theorem Collect_increments_total_scrapes (w : World) (r : Run) :
    (Collect w r).exporter.iota_node_info_totalScrapes.val =
      r.exporter.iota_node_info_totalScrapes.val + 1 ∧
    (Collect w r).exporter.iota_node_info_totalScrapes.desc =
      r.exporter.iota_node_info_totalScrapes.desc ∧
    Event.send
      { desc := r.exporter.iota_node_info_totalScrapes.desc
        kind := MetricKind.counter
        labels := []
        value := (r.exporter.iota_node_info_totalScrapes.val : Int) + 1 } ∈
      (Collect w r).trace.drop r.trace.length := by
  refine ⟨?_, ?_, ?_⟩
  · rw [Collect_exporter_eq, scrape_totalScrapes]; rfl
  · rw [Collect_exporter_eq, scrape_totalScrapes]; rfl
  · rw [Collect_trace_order, scrape_trace_eq, List.append_assoc, List.drop_left]
    simp [Exporter.sourceOrder, Member.emit, Counter.Metric, scrape_totalScrapes, Counter.Inc]

/-- C9: for every exporter state and world, the descriptors of what `Collect`
emits, event by event, are exactly the list `Describe` emits, in the same order;
so every metric `Collect` yields has its descriptor in the output of `Describe`,
and every descriptor of `Describe` is that of an emission of `Collect`. The
common order, by metric name for a state built by `NewExporter`: the ten
node-info gauges, the scrape counter, the two neighbor totals, the six per-peer
families, the eight ZeroMQ gauges. -/
theorem Describe_and_Collect_agree (e : Exporter) (w : World) (addr : String)
    (ws : List World) :
    (Collect w (Run.start e)).trace.filterMap Event.desc? = Describe e [] ∧
    (Collect w (Run.start e)).trace.filterMap Event.desc? =
      Describe (Collect w (Run.start e)).exporter [] ∧
    (∀ s ∈ yielded w e, s.desc ∈ Describe e []) ∧
    (∀ d ∈ Describe e [], ∃ ev ∈ (Collect w (Run.start e)).trace,
      ev.isEmit = true ∧ ev.desc? = some d) ∧
    (Describe e []).length = 27 ∧
    (Describe (reach addr ws) []).map Desc.fqName =
      [ "iota_node_info_duration",
        "iota_node_info_available_processors",
        "iota_node_info_free_memory",
        "iota_node_info_max_memory",
        "iota_node_info_total_memory",
        "iota_node_info_latest_milestone",
        "iota_node_info_latest_subtangle_milestone",
        "iota_node_info_total_neighbors",
        "iota_node_info_total_tips",
        "iota_node_info_total_transactions_queued",
        "iota_node_info_scrapes_total",
        "iota_neighbors_info_total_neighbors",
        "iota_neighbors_info_active_neighbors",
        "iota_neighbors_new_transactions",
        "iota_neighbors_random_transactions",
        "iota_neighbors_all_transactions",
        "iota_neighbors_invalid_transactions",
        "iota_neighbors_sent_transactions",
        "iota_neighbors_active",
        "iota_zmq_seen_tx_count",
        "iota_zmq_txs_with_value_count",
        "iota_zmq_confirmed_tx_count",
        "iota_zmq_to_process",
        "iota_zmq_to_broadcast",
        "iota_zmq_to_request",
        "iota_zmq_to_reply",
        "iota_zmq_total_transactions" ] := by
  have hpost : Describe (Collect w (Run.start e)).exporter [] = Describe e [] :=
    Describe_congr _ _ _ (Collect_descs w (Run.start e))
  have htrace : (Collect w (Run.start e)).trace.filterMap Event.desc? =
      Describe (Collect w (Run.start e)).exporter [] := by
    have h1 : (Event.desc? ∘ Member.emit) = some ∘ Member.desc := funext emit_desc
    rw [Collect_exporter_eq, Collect_trace_order, scrape_trace_eq, Describe_order,
      List.filterMap_append, List.filterMap_map, h1, List.filterMap_eq_map]
    rfl
  refine ⟨htrace.trans hpost, htrace, ?_, ?_, ?_, ?_⟩
  · intro s hs
    rw [← hpost, Collect_exporter_eq, Describe_order, List.nil_append]
    have ht : (Run.start e).trace = [] := rfl
    unfold yielded sentOf at hs
    rw [Collect_trace_order, scrape_trace_eq, ht, List.nil_append] at hs
    simp only [List.flatMap_append, List.mem_append, List.mem_flatMap] at hs
    rcases hs with ⟨ev, hev, hs⟩ | ⟨ev, hev, hs⟩
    · simp only [List.mem_cons, List.mem_singleton, List.not_mem_nil, or_false] at hev
      rcases hev with h | h | h | h | h <;> subst h <;> simp [Event.sent] at hs
    · obtain ⟨m, hm, rfl⟩ := List.mem_map.mp hev
      rw [emit_sent_desc m s hs]
      exact List.mem_map.mpr ⟨m, hm, rfl⟩
  · intro d hd
    rw [← hpost, Collect_exporter_eq, Describe_order, List.nil_append] at hd
    obtain ⟨m, hm, rfl⟩ := List.mem_map.mp hd
    refine ⟨m.emit, ?_, emit_isEmit m, emit_desc m⟩
    rw [Collect_trace_order]
    exact List.mem_append_right _ (List.mem_map.mpr ⟨m, hm, rfl⟩)
  · rw [Describe_order]; rfl
  · rw [Describe_reach]; rfl

/-- C4: with each sub-scrape a step that succeeds or fails, `scrape` runs all
three whatever the three outcomes are, and the metrics fed by one sub-scrape end
with values that depend on the outcome of that sub-scrape only: replacing the
outcome of any one sub-scrape by any other (a failure by a success, for
instance) leaves the metrics fed by the other two as they are. A failed fetch or
feed sample leaves the gauges and families it feeds at their previous values
(the ten node-info gauges, the neighbor metrics, the ZeroMQ gauges). -/
theorem scrape_isolates_sub_scrapes
    (ni ni2 : API → Option (Value × NodeSnapshot))
    (nb nb2 : API → Option (List NeighborStat))
    (z z2 : Option ZmqStat) (r : Run) :
    (scrape { GetNodeInfo := ni, GetNeighbors := nb, zmqSample := z } r).trace = r.trace ++
      [ Event.scrape,
        Event.NewAPI r.exporter.iriAddress,
        Event.scrape_nodeinfo (NewAPI r.exporter.iriAddress),
        Event.scrape_neighbors (NewAPI r.exporter.iriAddress),
        Event.scrape_zmq ] ∧
    ((scrape { GetNodeInfo := ni, GetNeighbors := nb, zmqSample := z } r).exporter.neighborMembers =
      (scrape { GetNodeInfo := ni2, GetNeighbors := nb, zmqSample := z } r).exporter.neighborMembers ∧
     (scrape { GetNodeInfo := ni, GetNeighbors := nb, zmqSample := z } r).exporter.zmqMembers =
      (scrape { GetNodeInfo := ni2, GetNeighbors := nb, zmqSample := z } r).exporter.zmqMembers) ∧
    ((scrape { GetNodeInfo := ni, GetNeighbors := nb, zmqSample := z } r).exporter.nodeInfoMembers =
      (scrape { GetNodeInfo := ni, GetNeighbors := nb2, zmqSample := z } r).exporter.nodeInfoMembers ∧
     (scrape { GetNodeInfo := ni, GetNeighbors := nb, zmqSample := z } r).exporter.zmqMembers =
      (scrape { GetNodeInfo := ni, GetNeighbors := nb2, zmqSample := z } r).exporter.zmqMembers) ∧
    ((scrape { GetNodeInfo := ni, GetNeighbors := nb, zmqSample := z } r).exporter.nodeInfoMembers =
      (scrape { GetNodeInfo := ni, GetNeighbors := nb, zmqSample := z2 } r).exporter.nodeInfoMembers ∧
     (scrape { GetNodeInfo := ni, GetNeighbors := nb, zmqSample := z } r).exporter.neighborMembers =
      (scrape { GetNodeInfo := ni, GetNeighbors := nb, zmqSample := z2 } r).exporter.neighborMembers) ∧
    ((scrape { GetNodeInfo := fun _ => none, GetNeighbors := nb, zmqSample := z } r).exporter.nodeInfoMembers.take 10 =
      r.exporter.nodeInfoMembers.take 10) ∧
    (scrape { GetNodeInfo := ni, GetNeighbors := fun _ => none, zmqSample := z } r).exporter.neighborMembers =
      r.exporter.neighborMembers ∧
    (scrape { GetNodeInfo := ni, GetNeighbors := nb, zmqSample := none } r).exporter.zmqMembers =
      r.exporter.zmqMembers := by
  refine ⟨scrape_trace_eq _ r, ⟨?_, ?_⟩, ⟨?_, ?_⟩, ⟨?_, ?_⟩, ?_, ?_, ?_⟩
  · rw [scrape_neighborMembers, scrape_neighborMembers]
  · rw [scrape_zmqMembers, scrape_zmqMembers]
  · rw [scrape_nodeInfoMembers, scrape_nodeInfoMembers]
  · rw [scrape_zmqMembers, scrape_zmqMembers]
  · rw [scrape_nodeInfoMembers, scrape_nodeInfoMembers]
  · rw [scrape_neighborMembers, scrape_neighborMembers]
  · rw [scrape_nodeInfoMembers]; rfl
  · rw [scrape_neighborMembers]; rfl
  · rw [scrape_zmqMembers]; rfl

/-- C8: `NewExporter` builds exactly six gauge families, each with the label
schema `["id"]` and a name of its own. In every reachable state, for two distinct
peer identifiers `A` and `B` stored in all six families when `Collect` emits, the
metrics `Collect` yields with the label `id = A` are exactly six, one per family
in the order of the families, each with the value its family stores under `A`;
likewise for `B`; and no metric is labelled with both. -/
theorem two_peers_six_samples_each (addr : String) (ws : List World) (w : World)
    (A B : String) (hAB : A ≠ B)
    (hA : ∀ v ∈ (Collect w (Run.start (reach addr ws))).exporter.families, [A] ∈ v.keys)
    (hB : ∀ v ∈ (Collect w (Run.start (reach addr ws))).exporter.families, [B] ∈ v.keys) :
    ((NewExporter addr).members.filter Member.isVec =
      (NewExporter addr).families.map Member.vec) ∧
    ((NewExporter addr).families.map (fun v => v.desc.variableLabels) =
      [["id"], ["id"], ["id"], ["id"], ["id"], ["id"]]) ∧
    ((NewExporter addr).families.map (fun v => v.desc.fqName) =
      [ "iota_neighbors_new_transactions",
        "iota_neighbors_random_transactions",
        "iota_neighbors_all_transactions",
        "iota_neighbors_invalid_transactions",
        "iota_neighbors_sent_transactions",
        "iota_neighbors_active" ]) ∧
    ((NewExporter addr).families.map (fun v => v.desc.fqName)).Nodup ∧
    ((Collect w (Run.start (reach addr ws))).exporter.families.map (fun v => v.desc) =
      (NewExporter addr).families.map (fun v => v.desc)) ∧
    ((yielded w (reach addr ws)).filter (labelled A) =
      (Collect w (Run.start (reach addr ws))).exporter.families.map (fun v => v.sampleOf A)) ∧
    ((yielded w (reach addr ws)).filter (labelled B) =
      (Collect w (Run.start (reach addr ws))).exporter.families.map (fun v => v.sampleOf B)) ∧
    ((yielded w (reach addr ws)).filter (labelled A)).length = 6 ∧
    ((yielded w (reach addr ws)).filter (labelled B)).length = 6 ∧
    (∀ v ∈ (Collect w (Run.start (reach addr ws))).exporter.families,
      (v.get [A]).isSome = true ∧ (v.get [B]).isSome = true) ∧
    (∀ s ∈ yielded w (reach addr ws), ¬ (labelled A s = true ∧ labelled B s = true)) := by
  have hfA := yielded_filter_labelled addr ws w A (by rw [← Collect_exporter_eq]; exact hA)
  have hfB := yielded_filter_labelled addr ws w B (by rw [← Collect_exporter_eq]; exact hB)
  rw [← Collect_exporter_eq] at hfA hfB
  have hInv : (Collect w (Run.start (reach addr ws))).exporter.Inv :=
    Collect_Inv w _ (reach_Inv addr ws)
  obtain ⟨d1, d2, d3, d4, d5, d6⟩ := Inv_family_descs _ hInv
  have hnd : ((NewExporter addr).families.map (fun v => v.desc.fqName)).Nodup := by
    have h0 : (NewExporter addr).families.map (fun v => v.desc.fqName) =
        (NewExporter "").families.map (fun v => v.desc.fqName) := rfl
    rw [h0]; decide
  refine ⟨rfl, rfl, rfl, hnd, ?_, hfA, hfB, ?_, ?_, ?_, ?_⟩
  · simp only [Exporter.families, List.map_cons, List.map_nil, d1, d2, d3, d4, d5, d6]
    rfl
  · rw [hfA]; rfl
  · rw [hfB]; rfl
  · intro v hv
    exact ⟨getEntry_isSome_of_mem _ _ (hA v hv), getEntry_isSome_of_mem _ _ (hB v hv)⟩
  · intro s _ hs
    obtain ⟨h1, h2⟩ := hs
    simp only [labelled, decide_eq_true_eq] at h1 h2
    rw [h1] at h2
    simp only [List.cons.injEq, Prod.mk.injEq, true_and, and_true] at h2
    exact hAB h2

/-- Witness for C8: one `Collect` from the fresh exporter against a world whose
neighbor fetch returns the peers `A` and `B`. -/
theorem two_peers_six_samples_each_witness :
    "A" ≠ "B" ∧
    (∀ v ∈ (Collect World.twoPeers (Run.start (reach "http://localhost:14265" []))).exporter.families,
      ["A"] ∈ v.keys ∧ ["B"] ∈ v.keys) ∧
    ((yielded World.twoPeers (reach "http://localhost:14265" [])).filter (labelled "A")).length = 6 ∧
    ((yielded World.twoPeers (reach "http://localhost:14265" [])).filter (labelled "B")).length = 6 ∧
    ((yielded World.twoPeers (reach "http://localhost:14265" [])).filter (labelled "B")).map
      Sample.value = [5, 1, 9, 2, 7, 1] :=
  have h := two_peers_six_samples_each "http://localhost:14265" [] World.twoPeers "A" "B"
    (by decide) (by decide) (by decide)
  ⟨by decide, by decide, h.2.2.2.2.2.2.2.1, h.2.2.2.2.2.2.2.2.1, by rw [h.2.2.2.2.2.2.1]; decide⟩

/-- C7 (counterexample): a successful neighbor fetch returns two entries under
the identifier `A`, the first with all-transactions count 0, the second with
count 8. After the scrape the family `iota_neighbors_active` stores 1 under `A`
and the one `iota_neighbors_active` metric `Collect` yields with `id = A` is 1, so
the statement "0 when the entry's count is 0" fails for the first entry. -/
theorem neighbor_active_flag_counterexample :
    World.samePeerTwice.GetNeighbors (NewAPI "http://localhost:14265") = some [peerA, peerA2] ∧
    peerA ∈ [peerA, peerA2] ∧
    peerA.allTransactions = 0 ∧
    (scrape World.samePeerTwice
      (Run.start (reach "http://localhost:14265" []))).exporter.iota_neighbors_active.get
        [peerA.id] = some 1 ∧
    ((yielded World.samePeerTwice (reach "http://localhost:14265" [])).filter
      (fun s => decide (s.desc.fqName = "iota_neighbors_active") && labelled peerA.id s)).map
        Sample.value = [1] ∧
    ¬ (∀ n ∈ [peerA, peerA2],
        (scrape World.samePeerTwice
          (Run.start (reach "http://localhost:14265" []))).exporter.iota_neighbors_active.get
            [n.id] = some (if n.allTransactions = 0 then 0 else 1)) := by
  refine ⟨rfl, by decide, rfl, by decide, by decide, by decide⟩

/-- C7 (as amended): in every reachable state, when the neighbor fetch succeeds,
then for every entry `n` of the response such that all entries of the response
under the identifier of `n` agree with `n` on whether the all-transactions count
is 0 (so in particular when no other entry carries that identifier), the family
`iota_neighbors_active` stores, after the scrape, 0 under `n.id` when
`n.allTransactions` is 0 and 1 when it is not; `Collect` yields that metric, and
every `iota_neighbors_active` metric it yields with the label `id = n.id` has that
value. -/
theorem neighbor_active_flag_when_entries_agree (addr : String) (ws : List World)
    (w : World) (ns : List NeighborStat) (n : NeighborStat)
    (hfetch : w.GetNeighbors (NewAPI addr) = some ns)
    (hn : n ∈ ns)
    (hagree : ∀ m ∈ ns, m.id = n.id → (m.allTransactions = 0 ↔ n.allTransactions = 0)) :
    (scrape w (Run.start (reach addr ws))).exporter.iota_neighbors_active.get [n.id] =
      some (if n.allTransactions = 0 then 0 else 1) ∧
    { desc := (NewExporter addr).iota_neighbors_active.desc
      kind := MetricKind.gauge
      labels := [("id", n.id)]
      value := if n.allTransactions = 0 then 0 else 1 } ∈ yielded w (reach addr ws) ∧
    (∀ s ∈ yielded w (reach addr ws),
      s.desc.fqName = "iota_neighbors_active" → labelled n.id s = true →
        s.value = if n.allTransactions = 0 then 0 else 1) := by
  have hget := scrape_active_get addr ws w ns n hfetch hagree hn
  have hkeys := scrape_mem_keys addr ws w ns n hfetch hn
  have hf := yielded_filter_labelled addr ws w n.id hkeys
  have hInv : (scrape w (Run.start (reach addr ws))).exporter.Inv :=
    scrape_Inv w _ (reach_Inv addr ws)
  obtain ⟨d1, d2, d3, d4, d5, d6⟩ := Inv_family_descs _ hInv
  have hval : ((scrape w (Run.start (reach addr ws))).exporter.iota_neighbors_active.sampleOf
      n.id).value = if n.allTransactions = 0 then 0 else 1 := by
    simp only [GaugeVec.sampleOf, hget, Option.getD_some, activeFlag]
  refine ⟨hget, ?_, ?_⟩
  · have hmem : (scrape w (Run.start (reach addr ws))).exporter.iota_neighbors_active.sampleOf
        n.id ∈ (yielded w (reach addr ws)).filter (labelled n.id) := by
      rw [hf]
      simp [Exporter.families]
    have h2 := (List.mem_filter.mp hmem).1
    have h3 : (scrape w (Run.start (reach addr ws))).exporter.iota_neighbors_active.sampleOf
        n.id = { desc := (NewExporter addr).iota_neighbors_active.desc
                 kind := MetricKind.gauge
                 labels := [("id", n.id)]
                 value := if n.allTransactions = 0 then 0 else 1 } := by
      rw [← hval]
      simp only [GaugeVec.sampleOf, d6]
      rfl
    rw [← h3]
    exact h2
  · intro s hs hname hlab
    have hmem : s ∈ (yielded w (reach addr ws)).filter (labelled n.id) :=
      List.mem_filter.mpr ⟨hs, hlab⟩
    rw [hf] at hmem
    simp only [Exporter.families, List.map_cons, List.map_nil, List.mem_cons,
      List.mem_singleton, List.not_mem_nil, or_false] at hmem
    rcases hmem with h | h | h | h | h | h
    · subst h
      simp [GaugeVec.sampleOf, d1, NewExporter, NewGaugeVec] at hname
    · subst h
      simp [GaugeVec.sampleOf, d2, NewExporter, NewGaugeVec] at hname
    · subst h
      simp [GaugeVec.sampleOf, d3, NewExporter, NewGaugeVec] at hname
    · subst h
      simp [GaugeVec.sampleOf, d4, NewExporter, NewGaugeVec] at hname
    · subst h
      simp [GaugeVec.sampleOf, d5, NewExporter, NewGaugeVec] at hname
    · subst h
      exact hval

/-- Witness for C7 (as amended): the peer `A` (no transactions) and the peer `B`
(nine transactions) in one successful neighbor fetch; both flags come out. -/
theorem neighbor_active_flag_when_entries_agree_witness :
    (World.twoPeers.GetNeighbors (NewAPI "http://localhost:14265") = some [peerA, peerB] ∧
      peerA ∈ [peerA, peerB] ∧
      (∀ m ∈ [peerA, peerB], m.id = peerA.id →
        (m.allTransactions = 0 ↔ peerA.allTransactions = 0))) ∧
    (scrape World.twoPeers
      (Run.start (reach "http://localhost:14265" []))).exporter.iota_neighbors_active.get
        ["A"] = some 0 ∧
    (∀ s ∈ yielded World.twoPeers (reach "http://localhost:14265" []),
      s.desc.fqName = "iota_neighbors_active" → labelled "A" s = true → s.value = 0) :=
  have h := neighbor_active_flag_when_entries_agree "http://localhost:14265" [] World.twoPeers
    [peerA, peerB] peerA rfl (by decide) (by decide)
  ⟨⟨rfl, by decide, by decide⟩, h.1, h.2.2⟩

end IotaIriExporter
